import Mathlib

/-!
Verification development for the DisplayQueue composition pipeline
(src/common/display/displayqueue.cpp).  The per-frame state machine is
embedded shallowly: the DisplayQueue fields become a `Queue` record,
external collaborators (DisplayPlaneManager, Compositor, PhysicalDisplay)
are oracles whose results are inputs, and each C++ method becomes a Lean
function mirroring its control flow.  File-descriptor duplication is
modelled as returning the same numeric handle; fence closes are recorded
where a claim needs them.
-/

/-- Axis-aligned rectangle as in HwcRect<int>. -/
structure HwcRect where
  left : Int
  top : Int
  right : Int
  bottom : Int
  deriving DecidableEq

/-- CalculateRect(a, b) from hwcutils: bounding union of two rectangles,
written into the second argument.  Modelled from the spec (axis-aligned
bounding union); hwcutils.cpp is not under src/. -/
def CalculateRect (d sd : HwcRect) : HwcRect :=
  { left := min d.left sd.left
    top := min d.top sd.top
    right := max d.right sd.right
    bottom := max d.bottom sd.bottom }

/-- HwcRect::empty().  Modelled from the spec (a damage rectangle with no
area is empty); the rect helpers are not under src/. -/
def rectEmpty (r : HwcRect) : Bool :=
  decide (r.right ≤ r.left) || decide (r.bottom ≤ r.top)

def rect0 : HwcRect := { left := 0, top := 0, right := 0, bottom := 0 }

def rectFull : HwcRect := { left := 0, top := 0, right := 1920, bottom := 1080 }

/-- Per-frame snapshot of one visible input layer (OverlayLayer), with the
delta bits InitializeFromHwcLayer computes against the previous frame's
peer.  composition: 0 = unset, 1 = kDisplay, 2 = kGpu. -/
structure OverlayLayerM where
  zorder : Nat
  layerIndex : Nat
  visible : Bool
  isCursor : Bool
  isVideo : Bool
  dimensionsChanged : Bool
  sourceRectChanged : Bool
  contentChanged : Bool
  rawPixelChanged : Bool
  needsRevalidation : Bool
  needsFullDraw : Bool
  canScanOut : Bool
  hasFb : Bool
  fbCreateOk : Bool
  acquireFence : Int
  composition : Nat
  surfaceDamage : HwcRect
  displayFrame : HwcRect
  sourceCrop : HwcRect
  deriving DecidableEq

/-- Caller-owned input layer (HwcLayer).  `init` is
OverlayLayer::InitializeFromHwcLayer, whose code is not under src/:
modelled from the spec as a function from the assigned z-order and the
previous peer to the built overlay (delta bits included); scaling
expansion is folded into it. -/
structure HwcLayerM where
  visible : Bool
  releaseFence : Int
  init : Nat → Option OverlayLayerM → OverlayLayerM

/-- One slot of the plane assignment (DisplayPlaneState).  Surfaces are
identified by numeric ids whose ages live in a store on the queue.  The
revalidation mask (ValidateReValidation / RevalidationType, code not
under src/) is modelled from the spec as the recorded bits
revScanout / revScaling. -/
structure PlaneStateM where
  planeId : Nat
  sourceLayers : List Nat
  surfaces : List Nat
  needsOffScreen : Bool
  scanout : Bool
  isCursor : Bool
  isVideo : Bool
  recycled : Bool
  canSquash : Bool
  applyEffects : Bool
  revScanout : Bool
  revScaling : Bool
  overlayFence : Int
  inUse : Bool
  displayFrame : HwcRect
  sourceCrop : HwcRect
  deriving DecidableEq

/-- DisplayQueue state word, one Bool per recognized bit. -/
structure StateWord where
  poweredOn : Bool
  configurationChanged : Bool
  needsColorCorrection : Bool
  disableOverlayUsage : Bool
  ignoreIdleRefresh : Bool
  clonedMode : Bool
  lastFrameIdleUpdate : Bool
  markSurfacesForRelease : Bool
  releaseSurfaces : Bool
  deriving DecidableEq

/-- FrameStateTracker: flag word split into Bools plus the counters. -/
structure Tracker where
  ignoreUpdates : Bool
  trackingFrames : Bool
  revalidateLayers : Bool
  prepareComposition : Bool
  prepareIdleComposition : Bool
  renderIdleDisplay : Bool
  idleFrames : Nat
  hasCursorLayer : Bool
  totalPlanes : Nat
  revalidateFramesCounter : Nat
  deriving DecidableEq

/-- The DisplayQueue instance state that the claims are about. -/
structure Queue where
  stateWord : StateWord
  inFlight : List OverlayLayerM
  prevPlanes : List PlaneStateM
  surfacesNotInuse : List Nat
  markNotInuse : List Nat
  ages : List (Nat × Int)
  nextSurface : Nat
  kmsFence : Int
  lastCommitFailed : Bool
  requestedVideoEffect : Bool
  appliedVideoEffect : Bool
  tracker : Tracker
  handleDisplayInit : Bool
  deriving DecidableEq

/-- Surface-age store update: later entries shadow earlier ones. -/
def setAge (ag : List (Nat × Int)) (s : Nat) (v : Int) : List (Nat × Int) :=
  (s, v) :: ag.filter (fun e => e.1 != s)

/-- Surface-age store lookup (0 when the surface is unknown). -/
def getAge (ag : List (Nat × Int)) (s : Nat) : Int :=
  ((ag.find? (fun e => e.1 == s)).map Prod.snd).getD 0

/-- fd duplication (dup).  A duplicate shares the underlying fence; it is
modelled as the same numeric handle. -/
def dup (f : Int) : Int := f

/-- The mutable surface-recycling bookkeeping threaded through a frame:
surfaces_not_inuse_, mark_not_inuse_, the age store and the allocation
counter. -/
structure Surf where
  surfacesNotInuse : List Nat
  markNotInuse : List Nat
  ages : List (Nat × Int)
  nextSurface : Nat
  deriving DecidableEq

def surfOf (q : Queue) : Surf :=
  { surfacesNotInuse := q.surfacesNotInuse
    markNotInuse := q.markNotInuse
    ages := q.ages
    nextSurface := q.nextSurface }

/-- DisplayPlaneManager::SetOffScreenPlaneTarget.  Modelled from the spec
contract: allocates/reuses an offscreen surface for the plane; a fresh
surface id is drawn from the counter. -/
def SetOffScreenPlaneTarget (p : PlaneStateM) (sf : Surf) : PlaneStateM × Surf :=
  ({ p with surfaces := [sf.nextSurface] },
   { sf with
     nextSurface := sf.nextSurface + 1
     ages := setAge sf.ages sf.nextSurface 0 })

/-- DisplayPlaneManager::MarkSurfacesForRecycling.  Modelled from the spec
contract: transfers the plane's surfaces to the out-queue. -/
def MarkSurfacesForRecycling (p : PlaneStateM) (sf : Surf) : PlaneStateM × Surf :=
  ({ p with surfaces := [], recycled := true },
   { sf with surfacesNotInuse := sf.surfacesNotInuse ++ p.surfaces })

/-- Events emitted by the video-control entry points, in program order;
the compositor forwarding calls are opaque events (Compositor is an
external collaborator), the lock entries are the video_lock_ critical
section boundaries. -/
inductive VideoEv where
  | lock
  | unlock
  | evSetVideoColor
  | evRestoreVideoColor
  | evSetVideoDeinterlace
  | evRestoreVideoDeinterlace
  | evSetVideoScalingMode
  deriving DecidableEq

/-- DisplayQueue::SetVideoColor (the color and value arguments are only
forwarded to the external compositor and are elided). -/
def SetVideoColor (q : Queue) : Queue × List VideoEv :=
  ({ q with requestedVideoEffect := true },
   [VideoEv.lock, VideoEv.evSetVideoColor, VideoEv.unlock])

/-- DisplayQueue::RestoreVideoDefaultColor. -/
def RestoreVideoDefaultColor (q : Queue) : Queue × List VideoEv :=
  ({ q with requestedVideoEffect := false },
   [VideoEv.lock, VideoEv.evRestoreVideoColor, VideoEv.unlock])

/-- DisplayQueue::SetVideoDeinterlace. -/
def SetVideoDeinterlace (q : Queue) : Queue × List VideoEv :=
  ({ q with requestedVideoEffect := true },
   [VideoEv.lock, VideoEv.evSetVideoDeinterlace, VideoEv.unlock])

/-- DisplayQueue::RestoreVideoDefaultDeinterlace. -/
def RestoreVideoDefaultDeinterlace (q : Queue) : Queue × List VideoEv :=
  ({ q with requestedVideoEffect := false },
   [VideoEv.lock, VideoEv.evRestoreVideoDeinterlace, VideoEv.unlock])

/-- DisplayQueue::SetVideoScalingMode.  In the source the assignment
requested_video_effect_ = true is commented out, so the flag is left
unchanged. -/
def SetVideoScalingMode (q : Queue) : Queue × List VideoEv :=
  (q, [VideoEv.lock, VideoEv.evSetVideoScalingMode, VideoEv.unlock])

/-- DisplayQueue::HandleIdleCase, lines 1098-1133.  kidleframes is the
constant from the (absent) header, kept as a parameter; hasCallback is
whether refresh_callback_ is registered.  Returns the new tracker and
whether the refresh callback fired. -/
def HandleIdleCase (kidleframes : Nat) (hasCallback : Bool)
    (st : StateWord) (t : Tracker) : Tracker × Bool :=
  if t.prepareComposition then (t, false)
  else if t.totalPlanes ≤ 1 || t.trackingFrames || t.revalidateLayers ||
      t.hasCursorLayer then (t, false)
  else if t.idleFrames > kidleframes then (t, false)
  else if t.idleFrames < kidleframes then
    ({ t with idleFrames := t.idleFrames + 1 }, false)
  else
    let t1 := { t with idleFrames := t.idleFrames + 1 }
    if !st.ignoreIdleRefresh && hasCallback && st.poweredOn then
      ({ t1 with prepareIdleComposition := true }, true)
    else (t1, false)

/-- DisplayQueue::IgnoreUpdates, lines 817-821: the tracker flag word is
overwritten with kIgnoreUpdates alone and both counters are zeroed. -/
def IgnoreUpdates (q : Queue) : Queue :=
  { q with tracker :=
    { q.tracker with
      ignoreUpdates := true
      trackingFrames := false
      revalidateLayers := false
      prepareComposition := false
      prepareIdleComposition := false
      renderIdleDisplay := false
      idleFrames := 0
      revalidateFramesCounter := 0 } }

/-- DisplayQueue::ResetQueue, lines 1170-1192.  The external release /
purge / compositor-reset calls have no queue-visible effect beyond the
cleared vectors; the tracker flag word is zeroed except kIgnoreUpdates. -/
def ResetQueue (q : Queue) : Queue :=
  { q with
    appliedVideoEffect := false
    lastCommitFailed := false
    inFlight := []
    prevPlanes := []
    markNotInuse := []
    surfacesNotInuse := []
    tracker := { q.tracker with
      trackingFrames := false
      revalidateLayers := false
      prepareComposition := false
      prepareIdleComposition := false
      renderIdleDisplay := false
      idleFrames := 0 } }

/-- DisplayQueue::HandleExit, lines 958-993.  Returns the queue and the
list of fds closed (the pending kms fence, when any).  The vblank and
display Disable calls are external and have no queue-visible effect. -/
def HandleExit (q : Queue) : Queue × List Int :=
  let closes := if q.kmsFence > 0 then [q.kmsFence] else []
  let kms2 : Int := if q.kmsFence > 0 then 0 else q.kmsFence
  let sw : StateWord :=
    { poweredOn := false
      configurationChanged := true
      needsColorCorrection := false
      disableOverlayUsage := q.stateWord.disableOverlayUsage
      ignoreIdleRefresh := false
      clonedMode := q.stateWord.clonedMode
      lastFrameIdleUpdate := false
      markSurfacesForRelease := false
      releaseSurfaces := false }
  (ResetQueue { q with stateWord := sw, kmsFence := kms2 }, closes)

inductive PowerMode where
  | kOff
  | kDoze
  | kDozeSuspend
  | kOn
  deriving DecidableEq

/-- DisplayQueue::SetPowerMode, lines 87-113 (queue-visible effects;
vblank and compositor init are external). -/
def SetPowerMode (q : Queue) (m : PowerMode) : Queue :=
  match m with
  | PowerMode.kOff => (HandleExit q).1
  | PowerMode.kDoze => (HandleExit q).1
  | PowerMode.kDozeSuspend =>
    { q with stateWord := { q.stateWord with poweredOn := true } }
  | PowerMode.kOn =>
    { q with stateWord := { q.stateWord with
      poweredOn := true
      configurationChanged := true
      needsColorCorrection := true
      ignoreIdleRefresh := false } }

/-- Ages written to a plane's surface list by UpdateOnScreenSurfaces
(lines 879-894): the triple-buffer rotation for size 3, otherwise
age = 2 - i (Int arithmetic: the C++ unsigned wrap-around at i > 2 lands
on the same negative value after the int conversion). -/
def agesFor (n : Nat) : List Int :=
  if n = 3 then [2, 0, 1]
  else (List.range n).map (fun i => (2 : Int) - (i : Int))

/-- DisplayQueue::UpdateOnScreenSurfaces, lines 873-917, as the age-store
transformation over previous_plane_state_. -/
def UpdateOnScreenSurfaces (planes : List PlaneStateM)
    (ages : List (Nat × Int)) : List (Nat × Int) :=
  planes.foldl
    (fun ag pl =>
      if pl.surfaces.isEmpty then ag
      else (pl.surfaces.zip (agesFor pl.surfaces.length)).foldl
        (fun a e => setAge a e.1 e.2) ag)
    ages

/-- External-call witnesses of one QueueUpdate run (which collaborator
entry points were invoked). -/
structure Trace where
  updateLayerPixelData : Bool := false
  beginFrame : Bool := false
  draw : Bool := false
  ensurePixel : Bool := false
  colorPushed : Bool := false
  committed : Bool := false
  distributed : Bool := false
  fullValidation : Bool := false
  releaseFree : Bool := false
  lazyInit : Bool := false
  deriving DecidableEq

/-- Result of DisplayPlaneManager::ValidateLayers (external contract):
whether rendering is needed, the commit-check / plane-validation out
parameters, and the resulting plane list and recycling queue. -/
structure ValidateOut where
  render : Bool
  commitChecked : Bool
  needsPlaneValidation : Bool
  planes : List PlaneStateM
  surfacesNotInuse : List Nat

/-- Result of DisplayPlaneManager::ReValidatePlanes (external contract). -/
structure RevalidateOut where
  render : Bool
  forceFull : Bool
  planes : List PlaneStateM
  surfacesNotInuse : List Nat

/-- Outcomes of the external collaborators for one QueueUpdate run.  The
plane manager entry points are functions of their C++ arguments; the
compositor and display outcomes are per-frame values. -/
structure Oracle where
  validateLayers : List OverlayLayerM → Int → Bool → List PlaneStateM →
    List PlaneStateM → List Nat → ValidateOut
  reValidatePlanes : List PlaneStateM → List OverlayLayerM → List Nat →
    Bool → Bool → RevalidateOut
  beginFrameOk : Bool
  drawOk : Bool
  commitOk : Bool
  commitFence : Int

/-- ScopedIdleStateTracker::IgnoreUpdate.  Modelled from the spec: ignore
when IgnoreUpdates is set or idle composition is already prepared (the
tracker class lives in the header, which is not under src/). -/
def IgnoreUpdate (t : Tracker) : Bool :=
  t.ignoreUpdates || t.prepareIdleComposition

/-- ScopedIdleStateTracker::ResetTrackerState.  Modelled from the spec
(Phase 3: reset tracker state unless idle frame): the per-frame tracking
flags and idle counter are cleared. -/
def resetTrackerState (t : Tracker) : Tracker :=
  { t with
    trackingFrames := false
    revalidateLayers := false
    prepareIdleComposition := false
    renderIdleDisplay := false
    idleFrames := 0 }

/-- Initial validate_layers value of a QueueUpdate call, lines 413-414:
the previous commit failed or there is no committed plane state. -/
def initialValidateLayers (q : Queue) : Bool :=
  q.lastCommitFailed || q.prevPlanes.isEmpty

/-- HwcLayer::SetReleaseFence(-1) applied to every input layer, as done
at the top of the build loop (line 423). -/
def resetFences (inp : List HwcLayerM) : List HwcLayerM :=
  inp.map (fun l => { l with releaseFence := -1 })

/-- Accumulator of the layer-building loop of QueueUpdate
(lines 421-527). -/
structure LoopSt where
  layers : List OverlayLayerM
  out : List HwcLayerM
  z : Nat
  addIndex : Int
  removeIndex : Int
  hasVideo : Bool
  reValidate : Bool
  handleRaw : Bool
  idleFrame : Bool
  hasCursor : Bool

/-- One iteration of the build loop: reset the release fence, skip
invisible input, build the overlay against the previous peer, drop it if
it came out invisible, fold the side-effect bits, and track the
add / remove diff indices including the cursor / video kind flips. -/
def buildStep (validate0 : Bool) (inFlight : List OverlayLayerM)
    (s : LoopSt) (idx : Nat) (l0 : HwcLayerM) : LoopSt :=
  let l := { l0 with releaseFence := -1 }
  if !l.visible then { s with out := s.out ++ [l] }
  else
    let peer := inFlight.get? s.z
    let add0 : Int :=
      if peer.isNone && s.addIndex == -1 then (s.z : Int) else s.addIndex
    let ol := { l.init s.z peer with zorder := s.z, layerIndex := idx }
    if !ol.visible then { s with out := s.out ++ [l], addIndex := add0 }
    else
      let s2 : LoopSt :=
        { s with
          layers := s.layers ++ [ol]
          out := s.out ++ [l]
          z := s.z + 1
          addIndex := add0
          handleRaw := s.handleRaw || ol.rawPixelChanged
          hasVideo := s.hasVideo || ol.isVideo
          reValidate := s.reValidate || ol.needsRevalidation
          idleFrame :=
            if ol.needsRevalidation then s.idleFrame
            else s.idleFrame && !ol.contentChanged
          hasCursor := s.hasCursor || ol.isCursor }
      if add0 == 0 || validate0 || (add0 != -1 && s.removeIndex != -1) then s2
      else
        match peer with
        | none => s2
        | some pl =>
          let rm1 : Int :=
            if pl.isCursor != ol.isCursor then
              (if s.removeIndex == -1 then (pl.zorder : Int) else s.removeIndex)
            else s.removeIndex
          let ad1 : Int :=
            if pl.isCursor != ol.isCursor then
              (if add0 == -1 then (ol.zorder : Int) else add0)
            else add0
          let rm2 : Int :=
            if pl.isVideo != ol.isVideo then
              (if rm1 == -1 then (pl.zorder : Int) else rm1)
            else rm1
          let ad2 : Int :=
            if pl.isVideo != ol.isVideo then
              (if ad1 == -1 then (ol.zorder : Int) else ad1)
            else ad1
          { s2 with removeIndex := rm2, addIndex := ad2 }

def loopInit : LoopSt :=
  { layers := []
    out := []
    z := 0
    addIndex := -1
    removeIndex := -1
    hasVideo := false
    reValidate := false
    handleRaw := false
    idleFrame := true
    hasCursor := false }

def buildGo (validate0 : Bool) (inFlight : List OverlayLayerM)
    (s : LoopSt) (idx : Nat) : List HwcLayerM → LoopSt
  | [] => s
  | l :: rest =>
    buildGo validate0 inFlight (buildStep validate0 inFlight s idx l)
      (idx + 1) rest

/-- The whole layer-building loop.  idle0 is the loop-entry value of the
idle_frame flag (tracker.RenderIdleMode() or the idle_update argument). -/
def buildLoop (validate0 : Bool) (idle0 : Bool)
    (inFlight : List OverlayLayerM) (inp : List HwcLayerM) : LoopSt :=
  buildGo validate0 inFlight { loopInit with idleFrame := idle0 } 0 inp

/-- Post-loop diff-index adjustment, lines 535-544: add_index 0 or a
pre-existing validate condition forces full validation; otherwise, when
layers were removed, an unset remove_index becomes size and a set one is
combined with a set add_index through min. -/
def adjustIndices (validate : Bool) (addIndex removeIndex : Int)
    (size previousSize : Nat) : Bool × Int :=
  if addIndex == 0 || validate then (true, removeIndex)
  else if previousSize > size then
    if removeIndex == -1 then (validate, (size : Int))
    else if addIndex != -1 then (validate, min addIndex removeIndex)
    else (validate, removeIndex)
  else (validate, removeIndex)

/-- Everything QueueUpdate has computed by line 594: the built layers,
the adjusted diff indices, the validate / idle / media decisions and the
updated tracker and applied-effect state. -/
structure P1 where
  layers : List OverlayLayerM
  out : List HwcLayerM
  addIndex : Int
  removeIndex : Int
  validate : Bool
  idleFrame : Bool
  hasVideo : Bool
  reValidate : Bool
  handleRaw : Bool
  forceMedia : Bool
  requestedEffect : Bool
  applied : Bool
  tracker : Tracker
  trace : Trace

/-- Phase 1 of QueueUpdate (lines 405-594): build loop, diff-index
adjustment, idle-frame decision, video-effect flip under the video lock,
and the trailing tracker.RevalidateLayers() check. -/
def phase1 (q : Queue) (inp : List HwcLayerM) (idleUpdate : Bool) : P1 :=
  let validate0 := initialValidateLayers q
  let idle0 := q.tracker.renderIdleDisplay || idleUpdate
  let ls := buildLoop validate0 idle0 q.inFlight inp
  let tracker1 :=
    { q.tracker with hasCursorLayer := q.tracker.hasCursorLayer || ls.hasCursor }
  let size := ls.layers.length
  let adj := adjustIndices validate0 ls.addIndex ls.removeIndex size
    q.inFlight.length
  let validate1 := adj.1
  let remove1 := adj.2
  let idle1 :=
    if ls.idleFrame then
      if ls.addIndex != -1 || remove1 != -1 || ls.reValidate then false
      else true
    else false
  let validate2 := validate1 || idle1
  let flip := ls.hasVideo && (q.requestedVideoEffect != q.appliedVideoEffect)
  let forceMedia := flip
  let requestedEffect := if flip then q.requestedVideoEffect else false
  let applied := if flip then q.requestedVideoEffect else q.appliedVideoEffect
  let idle2 := if flip then false else idle1
  let validate3 := if flip then true else validate2
  let validate4 :=
    if !validate3 && q.tracker.revalidateLayers then true else validate3
  { layers := ls.layers
    out := ls.out
    addIndex := ls.addIndex
    removeIndex := remove1
    validate := validate4
    idleFrame := idle2
    hasVideo := ls.hasVideo
    reValidate := ls.reValidate
    handleRaw := ls.handleRaw
    forceMedia := forceMedia
    requestedEffect := requestedEffect
    applied := applied
    tracker := tracker1
    trace := { updateLayerPixelData := ls.handleRaw } }

/-- Accumulator of the GetCachedLayers plane loop (lines 149-346). -/
structure GCAcc where
  comp : List PlaneStateM
  sf : Surf
  ignore : Bool
  squash : Bool
  planeValidation : Bool
  resetRegions : Bool
  needsGpu : Bool
  stop : Bool

/-- Accumulator of the per-plane source-layer refresh scan
(lines 242-286). -/
structure ScanAcc where
  p : PlaneStateM
  updateRect : Bool
  updateSrc : Bool
  refresh : Bool
  damage : HwcRect
  damageInit : Bool

/-- One step of the per-plane source-layer refresh scan: record display
frame / source crop updates, then (unless a full reset or an earlier
refresh short-circuits) take the layer's full-draw flag and union its
damage.  UpdateDisplayFrame / UpdateSourceCrop live in DisplayPlaneState
(not under src/) and are modelled as recording the layer's rectangle;
the computed-but-unused only_cursor_rect_changed local is omitted. -/
def scanStep (layers : List OverlayLayerM) (fullReset : Bool)
    (a : ScanAcc) (srcIdx : Nat) : ScanAcc :=
  match layers.get? srcIdx with
  | none => a
  | some ly =>
    let a1 :=
      if ly.dimensionsChanged then
        { a with p := { a.p with displayFrame := ly.displayFrame }, updateRect := true }
      else a
    let a2 :=
      if ly.sourceRectChanged then
        { a1 with p := { a1.p with sourceCrop := ly.sourceCrop }, updateSrc := true }
      else a1
    if fullReset then a2
    else if a2.refresh then a2
    else
      let a3 := { a2 with refresh := ly.needsFullDraw }
      if ly.contentChanged then
        if a3.damageInit then
          { a3 with damage := CalculateRect ly.surfaceDamage a3.damage }
        else { a3 with damage := ly.surfaceDamage, damageInit := true }
      else a3

/-- Outcome of the removal sub-block of one GetCachedLayers plane
iteration: 0 = keep processing the plane, 1 = plane erased (continue with
the next plane), 2 = primary went empty (force full validation and
stop). -/
structure RemovalOut where
  action : Nat
  lp : PlaneStateM
  sf : Surf
  ignore : Bool
  squash : Bool
  planeValidation : Bool
  clear : Bool

/-- Removal handling of one previous plane, lines 154-228: when the
plane's topmost source layer is at or above the removal threshold, either
erase a single-layer plane (recycling its surfaces, with the
primary-plane force-full escape) or truncate its layers
(DisplayPlaneState::ResetLayers, not under src/, modelled from the spec
as keeping the layers below the threshold) and run the scanout
revalidation check. -/
def removalStep (q : Queue) (layers : List OverlayLayerM)
    (removeIndex : Int) (acc : GCAcc) (lp : PlaneStateM) : RemovalOut :=
  let keep : RemovalOut :=
    { action := 0
      lp := lp
      sf := acc.sf
      ignore := acc.ignore
      squash := acc.squash
      planeValidation := acc.planeValidation
      clear := false }
  if removeIndex == -1 then keep
  else
    match lp.sourceLayers.getLast? with
    | none => keep
    | some topIdx =>
      if (topIdx : Int) ≥ removeIndex then
        let hasOne := lp.sourceLayers.length == 1
        let threshold := removeIndex.toNat
        let lp1 :=
          if !hasOne then
            { lp with sourceLayers := lp.sourceLayers.filter (fun i => i < threshold) }
          else lp
        let clear := !hasOne
        if lp1.sourceLayers.isEmpty || hasOne then
          let ms := MarkSurfacesForRecycling lp1 acc.sf
          let primaryId := ((q.prevPlanes.head?).map (fun x => x.planeId)).getD 0
          if lp1.planeId == primaryId then
            { action := 2
              lp := ms.1
              sf := ms.2
              ignore := false
              squash := acc.squash
              planeValidation := acc.planeValidation
              clear := clear }
          else
            { action := 1
              lp := ms.1
              sf := ms.2
              ignore := false
              squash := acc.squash
              planeValidation := acc.planeValidation
              clear := clear }
        else
          if lp1.revScanout then
            match layers.get? (lp1.sourceLayers.headD 0) with
            | none =>
              { keep with lp := lp1, ignore := false, clear := clear }
            | some ly =>
              if ly.canScanOut && lp1.needsOffScreen then
                { keep with
                  lp := lp1
                  ignore := false
                  planeValidation := true
                  clear := clear }
              else if lp1.sourceLayers.length == 1 then
                { keep with
                  lp := { lp1 with revScanout := false }
                  ignore := false
                  squash := true
                  clear := clear }
              else { keep with lp := lp1, ignore := false, clear := clear }
          else { keep with lp := lp1, ignore := false, clear := clear }
      else keep

/-- One plane iteration of GetCachedLayers (lines 149-346): the removal
sub-block, then either the offscreen-composition refresh path or the
scanout path with its framebuffer-creation fallback. -/
def cachedPlaneStep (q : Queue) (layers : List OverlayLayerM)
    (removeIndex : Int) (acc : GCAcc) (prevPlane : PlaneStateM) : GCAcc :=
  if acc.stop then acc
  else
    let r := removalStep q layers removeIndex acc prevPlane
    if r.action == 2 then
      { acc with sf := r.sf, ignore := false, stop := true }
    else if r.action == 1 then
      { acc with sf := r.sf, ignore := false, squash := r.squash, planeValidation := r.planeValidation }
    else
      let lp1 := r.lp
      if lp1.needsOffScreen then
        let fullReset := r.clear || acc.resetRegions
        let sa0 : ScanAcc :=
          { p := lp1
            updateRect := false
            updateSrc := false
            refresh := acc.resetRegions
            damage := rect0
            damageInit := false }
        let sa :=
          if r.clear then sa0
          else lp1.sourceLayers.foldl (scanStep layers fullReset) sa0
        let lp2 := sa.p
        let pv2 :=
          if sa.updateRect || sa.updateSrc || r.clear then
            (if lp2.revScanout || lp2.revScaling then true else r.planeValidation)
          else r.planeValidation
        let need :=
          fullReset || !rectEmpty sa.damage || sa.updateRect || sa.updateSrc ||
            sa.refresh
        let alloc :=
          if need && lp2.surfaces.isEmpty then SetOffScreenPlaneTarget lp2 r.sf
          else (lp2, r.sf)
        let lp3 := alloc.1
        let sf2 := alloc.2
        let needsGpu2 := if !acc.needsGpu then !lp3.recycled else acc.needsGpu
        { comp := acc.comp ++ [lp3]
          sf := sf2
          ignore := r.ignore
          squash := r.squash
          planeValidation := pv2
          resetRegions := false
          needsGpu := needsGpu2
          stop := false }
      else
        match layers.get? (lp1.sourceLayers.headD 0) with
        | none =>
          { acc with
            comp := acc.comp ++ [lp1]
            sf := r.sf
            ignore := r.ignore
            squash := r.squash
            planeValidation := r.planeValidation
            resetRegions := false }
        | some ly =>
          if !ly.hasFb && !ly.fbCreateOk then
            { acc with
              sf := r.sf
              ignore := false
              squash := r.squash
              planeValidation := r.planeValidation
              stop := true }
          else
            let resetR := !ly.hasFb
            let lp2 := { lp1 with overlayFence := ly.acquireFence }
            let ignore2 := if ly.contentChanged then false else r.ignore
            let flagged :=
              ly.dimensionsChanged || ly.needsRevalidation || ly.needsFullDraw
            let ignore3 := if flagged then false else ignore2
            let resetR2 := if flagged then true else resetR
            { acc with
              comp := acc.comp ++ [lp2]
              sf := r.sf
              ignore := ignore3
              squash := r.squash
              planeValidation := r.planeValidation
              resetRegions := resetR2 }

/-- The squash phase of GetCachedLayers, lines 356-392: when flagged,
merge the last squashable single-layer overlay (skipping a trailing
cursor plane) into its predecessor, allocating an offscreen target for
the merged plane when needed and recycling the erased plane's surfaces.
DisplayPlaneState::AddLayer is not under src/; merging two layers onto
one plane makes it offscreen-composed (modelled from the spec). -/
def squashStep (comp : List PlaneStateM) (sf : Surf) :
    List PlaneStateM × Surf :=
  let size0 := comp.length
  let size :=
    if ((comp.getLast?).map (fun p => p.isCursor)).getD false then size0 - 1
    else size0
  if size > 2 then
    match comp.get? (size - 2), comp.get? (size - 1) with
    | some oldp, some lastov =>
      if oldp.canSquash && lastov.canSquash &&
          lastov.sourceLayers.length == 1 then
        let oldp2 :=
          { oldp with
            sourceLayers := oldp.sourceLayers ++ [lastov.sourceLayers.headD 0]
            needsOffScreen := true }
        let alloc :=
          if oldp2.surfaces.isEmpty then SetOffScreenPlaneTarget oldp2 sf
          else (oldp2, sf)
        let sf3 :=
          if !lastov.surfaces.isEmpty then
            { alloc.2 with
              surfacesNotInuse := alloc.2.surfacesNotInuse ++ lastov.surfaces }
          else alloc.2
        ((comp.set (size - 2) alloc.1).eraseIdx (size - 1), sf3)
      else (comp, sf)
    | _, _ => (comp, sf)
  else (comp, sf)

/-- Output of DisplayQueue::GetCachedLayers. -/
structure GCOut where
  comp : List PlaneStateM
  sf : Surf
  render : Bool
  canIgnore : Bool
  planeValidation : Bool
  forceFull : Bool

/-- DisplayQueue::GetCachedLayers, lines 133-393. -/
def GetCachedLayers (q : Queue) (sf : Surf) (layers : List OverlayLayerM)
    (removeIndex : Int) : GCOut :=
  let acc0 : GCAcc :=
    { comp := []
      sf := sf
      ignore := true
      squash := false
      planeValidation := false
      resetRegions := false
      needsGpu := false
      stop := false }
  let acc := q.prevPlanes.foldl (cachedPlaneStep q layers removeIndex) acc0
  if acc.stop then
    { comp := acc.comp
      sf := acc.sf
      render := false
      canIgnore := false
      planeValidation := acc.planeValidation
      forceFull := true }
  else
    let ignore1 := if acc.needsGpu then false else acc.ignore
    let sq := if acc.squash then squashStep acc.comp acc.sf else (acc.comp, acc.sf)
    { comp := sq.1
      sf := sq.2
      render := acc.needsGpu
      canIgnore := ignore1
      planeValidation := acc.planeValidation
      forceFull := false }

/-- DisplayQueue::SetMediaEffectsState, lines 845-871, threaded over the
recycling state. -/
def SetMediaEffectsState (applyEffects : Bool) (layers : List OverlayLayerM)
    (planes : List PlaneStateM) (sf : Surf) : List PlaneStateM × Surf :=
  planes.foldl
    (fun acc p =>
      if !p.isVideo then (acc.1 ++ [p], acc.2)
      else
        let p1 := { p with applyEffects := applyEffects }
        if applyEffects && p1.surfaces.isEmpty then
          let al := SetOffScreenPlaneTarget p1 acc.2
          (acc.1 ++ [al.1], al.2)
        else if !applyEffects && !p1.surfaces.isEmpty && p1.scanout then
          let ms := MarkSurfacesForRecycling p1 acc.2
          let fence :=
            ((layers.get? (ms.1.sourceLayers.headD 0)).map
              (fun l => l.acquireFence)).getD (-1)
          (acc.1 ++ [{ ms.1 with overlayFence := fence }], ms.2)
        else (acc.1 ++ [p1], acc.2))
    ([], sf)

/-- Outcome of the incremental block of QueueUpdate (lines 597-642). -/
structure IncrOut where
  earlySuccess : Bool
  validate : Bool
  comp : List PlaneStateM
  render : Bool
  reValidate : Bool
  sf : Surf

/-- The incremental block of QueueUpdate, lines 597-642: GetCachedLayers,
the pure-addition ValidateLayers call, the ReValidatePlanes call, the
(dead, kept for fidelity) in-block media handling, and the
can_ignore_commit early success. -/
def incrPhase (o : Oracle) (q : Queue) (p : P1) (sf0 : Surf) : IncrOut :=
  if p.validate then
    { earlySuccess := false
      validate := true
      comp := []
      render := false
      reValidate := p.reValidate
      sf := sf0 }
  else
    let gc := GetCachedLayers q sf0 p.layers p.removeIndex
    let validate1 := gc.forceFull
    let addStep :=
      if !validate1 && p.addIndex > 0 then
        let vo := o.validateLayers p.layers p.addIndex
          q.stateWord.disableOverlayUsage gc.comp q.prevPlanes
          gc.sf.surfacesNotInuse
        ((gc.render || vo.render), false,
         (if vo.commitChecked then false else p.reValidate),
         vo.needsPlaneValidation, vo.planes,
         { gc.sf with surfacesNotInuse := vo.surfacesNotInuse })
      else
        (gc.render, gc.canIgnore, p.reValidate, gc.planeValidation, gc.comp,
         gc.sf)
    let render2 := addStep.1
    let canIgnore2 := addStep.2.1
    let rv2 := addStep.2.2.1
    let pv2 := addStep.2.2.2.1
    let comp2 := addStep.2.2.2.2.1
    let sf2 := addStep.2.2.2.2.2
    let revStep :=
      if !validate1 && (rv2 || pv2) then
        let ro := o.reValidatePlanes comp2 p.layers sf2.surfacesNotInuse pv2 rv2
        (ro.forceFull, (render2 || ro.render), false, ro.planes,
         { sf2 with surfacesNotInuse := ro.surfacesNotInuse })
      else (validate1, render2, canIgnore2, comp2, sf2)
    let validate3 := revStep.1
    let render3 := revStep.2.1
    let canIgnore3 := revStep.2.2.1
    let comp3 := revStep.2.2.2.1
    let sf3 := revStep.2.2.2.2
    if !validate3 then
      let mediaStep :=
        if p.forceMedia then
          let ms := SetMediaEffectsState p.requestedEffect p.layers comp3 sf3
          (true, false, ms.1, ms.2)
        else (render3, canIgnore3, comp3, sf3)
      { earlySuccess := mediaStep.2.1
        validate := false
        comp := mediaStep.2.2.1
        render := mediaStep.1
        reValidate := rv2
        sf := mediaStep.2.2.2 }
    else
      { earlySuccess := false
        validate := validate3
        comp := comp3
        render := render3
        reValidate := rv2
        sf := sf3 }

/-- Outcome of the full-validation block of QueueUpdate (lines 645-667),
carrying the state-word, tracker and trace as updated so far. -/
structure FullOut where
  validateUsed : Bool
  comp : List PlaneStateM
  render : Bool
  tracker : Tracker
  stateWord : StateWord
  sf : Surf
  trace : Trace

/-- The full-validation block of QueueUpdate, lines 645-667 (line 645
resetting last_commit_failed_update_ is applied by the caller): tracker
reset unless idle, force-gpu decision, the add_index = 0 ValidateLayers
call, the media-effects reapplication, and the kConfigurationChanged
clear. -/
def fullPhase (o : Oracle) (q : Queue) (p : P1) (i : IncrOut) : FullOut :=
  if i.validate then
    let tracker1 := if !p.idleFrame then resetTrackerState p.tracker else p.tracker
    let forceGpu := q.stateWord.disableOverlayUsage || p.idleFrame ||
      (q.stateWord.configurationChanged && decide (1 < p.layers.length))
    let vo := o.validateLayers p.layers 0 forceGpu i.comp q.prevPlanes
      i.sf.surfacesNotInuse
    let sf1 := { i.sf with surfacesNotInuse := vo.surfacesNotInuse }
    let mediaStep :=
      if p.forceMedia && p.requestedEffect then
        let ms := SetMediaEffectsState p.requestedEffect p.layers vo.planes sf1
        (ms.1, true, ms.2)
      else (vo.planes, vo.render, sf1)
    { validateUsed := true
      comp := mediaStep.1
      render := mediaStep.2.1
      tracker := tracker1
      stateWord := { q.stateWord with configurationChanged := false }
      sf := mediaStep.2.2
      trace := { p.trace with fullValidation := true } }
  else
    { validateUsed := false
      comp := i.comp
      render := i.render
      tracker := p.tracker
      stateWord := q.stateWord
      sf := i.sf
      trace := p.trace }

/-- The GPU-composition block of QueueUpdate, lines 673-694: BeginFrame
then Draw when rendering is needed, otherwise EnsurePixelDataUpdated on a
raw-pixel update.  Returns (composition failed, trace). -/
def renderPhase (o : Oracle) (p : P1) (f : FullOut) : Bool × Trace :=
  if f.render then
    let t1 := { f.trace with beginFrame := true }
    if !o.beginFrameOk then (true, t1)
    else
      let t2 := { t1 with draw := true }
      if !o.drawOk then (true, t2) else (false, t2)
  else if p.handleRaw then (false, { f.trace with ensurePixel := true })
  else (false, f.trace)

/-- DisplayQueue::ReleaseSurfaces, lines 823-827 (the plane-manager
release call is the releaseFree trace event). -/
def ReleaseSurfaces (st : StateWord) (tr : Trace) : StateWord × Trace :=
  ({ st with markSurfacesForRelease := false, releaseSurfaces := false },
   { tr with releaseFree := true })

/-- DisplayQueue::ReleaseSurfacesAsNeeded, lines 829-843. -/
def ReleaseSurfacesAsNeeded (layersValidated : Bool) (st : StateWord)
    (tr : Trace) : StateWord × Trace :=
  let s1 :=
    if !layersValidated && st.releaseSurfaces then ReleaseSurfaces st tr
    else (st, tr)
  let st2 :=
    if s1.1.markSurfacesForRelease then
      { s1.1 with releaseSurfaces := true, markSurfacesForRelease := false }
    else s1.1
  let st3 :=
    if layersValidated then
      { st2 with markSurfacesForRelease := true, releaseSurfaces := false }
    else st2
  (st3, s1.2)

/-- DisplayQueue::SetReleaseFenceToLayers, lines 919-956: scanout planes
hand every source layer a dup of the out-fence; composed planes hand out
the plane overlay's composition fence (or the layer's own acquire fence),
closing the composition fence once at the end (close is queue-invisible).
Returns the updated caller layers and in-flight layers. -/
def SetReleaseFenceToLayers (fence : Int) (src : List HwcLayerM)
    (inFlight : List OverlayLayerM) (planes : List PlaneStateM) :
    List HwcLayerM × List OverlayLayerM :=
  planes.foldl
    (fun acc pl =>
      if pl.scanout && !pl.recycled then
        pl.sourceLayers.foldl
          (fun a idx =>
            match a.2.get? idx with
            | none => a
            | some ol =>
              let src2 :=
                match a.1.get? ol.layerIndex with
                | none => a.1
                | some sl => a.1.set ol.layerIndex { sl with releaseFence := dup fence }
              (src2, a.2.set idx { ol with composition := 1 }))
          acc
      else
        let rel := pl.overlayFence
        pl.sourceLayers.foldl
          (fun a idx =>
            match a.2.get? idx with
            | none => a
            | some ol =>
              if rel > 0 then
                let src2 :=
                  match a.1.get? ol.layerIndex with
                  | none => a.1
                  | some sl => a.1.set ol.layerIndex { sl with releaseFence := dup rel }
                (src2, a.2.set idx { ol with composition := 2 })
              else
                let temp := ol.acquireFence
                let fl2 := a.2.set idx { ol with composition := 2, acquireFence := -1 }
                if temp > 0 then
                  let src2 :=
                    match a.1.get? ol.layerIndex with
                    | none => a.1
                    | some sl => a.1.set ol.layerIndex { sl with releaseFence := temp }
                  (src2, fl2)
                else (a.1, fl2))
          acc)
    (src, inFlight)

/-- Post-commit processing of surfaces_not_inuse_, lines 749-764: ages
are read through a uint32_t, so any nonzero age (including the negative
ones) is treated as positive, decremented and kept; age-zero surfaces
move to mark_not_inuse_. -/
def processNotInuse (sf : Surf) : Surf :=
  let r := sf.surfacesNotInuse.foldl
    (fun (acc : List Nat × List Nat × List (Nat × Int)) s =>
      let age := getAge acc.2.2 s
      if age % 4294967296 != 0 then
        (acc.1 ++ [s], acc.2.1, setAge acc.2.2 s (age - 1))
      else (acc.1, acc.2.1 ++ [s], acc.2.2))
    ([], sf.markNotInuse, sf.ages)
  { sf with surfacesNotInuse := r.1, markNotInuse := r.2.1, ages := r.2.2 }

/-- Result of one QueueUpdate call: success flag, resulting queue, the
retire-fence out-parameter as seen by the caller, the caller's layer list
(release fences included), the commit out-fence and the call trace. -/
structure QUResult where
  ok : Bool
  q : Queue
  retire : Int
  outLayers : List HwcLayerM
  outFence : Int
  trace : Trace

/-- The commit and post-commit phases of QueueUpdate, lines 701-801:
pre-commit kms-fence wait (single-buffered mode), color-correction push,
Commit, the not-in-use bookkeeping, the state swaps, surface aging, idle
release handling, retire-fence duplication and release-fence
distribution, and the double-buffered post-commit wait. -/
def commitPhase (o : Oracle) (db : Bool) (q : Queue) (p : P1) (f : FullOut)
    (tr0 : Trace) : QUResult :=
  let kms1 : Int := if !db && q.kmsFence > 0 then 0 else q.kmsFence
  let colorStep :=
    if f.stateWord.needsColorCorrection then
      ({ f.stateWord with needsColorCorrection := false },
       { tr0 with colorPushed := true })
    else (f.stateWord, tr0)
  let stw1 := colorStep.1
  let tr2 := { colorStep.2 with committed := true }
  if !o.commitOk then
    { ok := false
      q := { q with
        stateWord := stw1
        tracker := f.tracker
        surfacesNotInuse := f.sf.surfacesNotInuse
        markNotInuse := f.sf.markNotInuse
        ages := f.sf.ages
        nextSurface := f.sf.nextSurface
        appliedVideoEffect := p.applied
        kmsFence := kms1
        lastCommitFailed := true }
      retire := -1
      outLayers := p.out
      outFence := 0
      trace := tr2 }
  else
    let fence := o.commitFence
    let ages1 := f.sf.markNotInuse.foldl (fun a s => setAge a s (-1)) f.sf.ages
    let sf1 := { f.sf with markNotInuse := [], ages := ages1 }
    let inFlight1 := p.layers
    let prev1 := f.comp
    let sf2 := { sf1 with ages := UpdateOnScreenSurfaces prev1 sf1.ages }
    let sf3 := processNotInuse sf2
    let idleStep :=
      if p.idleFrame then
        let rs := ReleaseSurfaces stw1 tr2
        let s := { rs.1 with lastFrameIdleUpdate := true }
        let trk :=
          if s.clonedMode then { f.tracker with renderIdleDisplay := true }
          else f.tracker
        (s, trk, rs.2)
      else
        let s0 := { stw1 with lastFrameIdleUpdate := false }
        let rs := ReleaseSurfacesAsNeeded f.validateUsed s0 tr2
        (rs.1, f.tracker, rs.2)
    let stw2 := idleStep.1
    let trk2 := idleStep.2.1
    let tr3 := idleStep.2.2
    let fenceStep :=
      if fence > 0 then
        let r : Int := if stw2.clonedMode then -1 else dup fence
        let sr := SetReleaseFenceToLayers fence p.out inFlight1 prev1
        (r, fence, { tr3 with distributed := true }, sr.1, sr.2)
      else ((-1 : Int), kms1, tr3, p.out, inFlight1)
    let retire := fenceStep.1
    let kms2 := fenceStep.2.1
    let tr4 := fenceStep.2.2.1
    let src2 := fenceStep.2.2.2.1
    let inFlight2 := fenceStep.2.2.2.2
    let kms3 : Int := if db && kms2 > 0 then 0 else kms2
    let hdiStep :=
      if q.handleDisplayInit then (false, { tr4 with lazyInit := true })
      else (q.handleDisplayInit, tr4)
    { ok := true
      q := { q with
        stateWord := stw2
        tracker := trk2
        inFlight := inFlight2
        prevPlanes := prev1
        surfacesNotInuse := sf3.surfacesNotInuse
        markNotInuse := sf3.markNotInuse
        ages := sf3.ages
        nextSurface := sf3.nextSurface
        appliedVideoEffect := p.applied
        kmsFence := kms3
        lastCommitFailed := false
        handleDisplayInit := hdiStep.1 }
      retire := retire
      outLayers := src2
      outFence := fence
      trace := hdiStep.2 }

/-- DisplayQueue::QueueUpdate, lines 395-802.  db is the compile-time
ENABLE_DOUBLE_BUFFERING flag; retireIn is the caller's value behind the
retire_fence pointer (returned unchanged on paths that never write it). -/
def QueueUpdate (o : Oracle) (db : Bool) (q : Queue) (inp : List HwcLayerM)
    (idleUpdate : Bool) (retireIn : Int) : QUResult :=
  if IgnoreUpdate q.tracker then
    { ok := true
      q := q
      retire := retireIn
      outLayers := inp
      outFence := 0
      trace := {} }
  else
    let p := phase1 q inp idleUpdate
    let i := incrPhase o q p (surfOf q)
    if i.earlySuccess then
      { ok := true
        q := { q with
          inFlight := p.layers
          tracker := p.tracker
          appliedVideoEffect := p.applied
          surfacesNotInuse := i.sf.surfacesNotInuse
          markNotInuse := i.sf.markNotInuse
          ages := i.sf.ages
          nextSurface := i.sf.nextSurface }
        retire := -1
        outLayers := p.out
        outFence := 0
        trace := p.trace }
    else
      let f := fullPhase o q p i
      let rp := renderPhase o p f
      if rp.1 then
        { ok := false
          q := { q with
            stateWord := f.stateWord
            tracker := f.tracker
            surfacesNotInuse := f.sf.surfacesNotInuse
            markNotInuse := f.sf.markNotInuse
            ages := f.sf.ages
            nextSurface := f.sf.nextSurface
            appliedVideoEffect := p.applied
            lastCommitFailed := true }
          retire := -1
          outLayers := p.out
          outFence := 0
          trace := rp.2 }
      else commitPhase o db q p f rp.2

/-! Concrete fixtures used by witnesses and counterexamples. -/

def sw0 : StateWord :=
  { poweredOn := true
    configurationChanged := false
    needsColorCorrection := false
    disableOverlayUsage := false
    ignoreIdleRefresh := false
    clonedMode := false
    lastFrameIdleUpdate := false
    markSurfacesForRelease := false
    releaseSurfaces := false }

def t0 : Tracker :=
  { ignoreUpdates := false
    trackingFrames := false
    revalidateLayers := false
    prepareComposition := false
    prepareIdleComposition := false
    renderIdleDisplay := false
    idleFrames := 0
    hasCursorLayer := false
    totalPlanes := 1
    revalidateFramesCounter := 0 }

/-- A full-screen opaque scanout layer identical to its previous-frame
peer (all delta bits clear). -/
def olSteady : OverlayLayerM :=
  { zorder := 0
    layerIndex := 0
    visible := true
    isCursor := false
    isVideo := false
    dimensionsChanged := false
    sourceRectChanged := false
    contentChanged := false
    rawPixelChanged := false
    needsRevalidation := false
    needsFullDraw := false
    canScanOut := true
    hasFb := true
    fbCreateOk := true
    acquireFence := -1
    composition := 0
    surfaceDamage := rect0
    displayFrame := rectFull
    sourceCrop := rectFull }

def hlSteady : HwcLayerM :=
  { visible := true, releaseFence := -1, init := fun _ _ => olSteady }

/-- The same layer with new content this frame. -/
def olChanged : OverlayLayerM := { olSteady with contentChanged := true }

def hlChanged : HwcLayerM :=
  { visible := true, releaseFence := -1, init := fun _ _ => olChanged }

/-- A committed single-layer scanout plane. -/
def planeScan : PlaneStateM :=
  { planeId := 0
    sourceLayers := [0]
    surfaces := []
    needsOffScreen := false
    scanout := true
    isCursor := false
    isVideo := false
    recycled := false
    canSquash := false
    applyEffects := false
    revScanout := false
    revScaling := false
    overlayFence := -1
    inUse := true
    displayFrame := rectFull
    sourceCrop := rectFull }

/-- An offscreen-composed plane owning the single surface 5. -/
def planeOff1 : PlaneStateM :=
  { planeScan with surfaces := [5], needsOffScreen := true, scanout := false }

/-- A queue one successful single-layer commit after power-on. -/
def steadyQ : Queue :=
  { stateWord := sw0
    inFlight := [olSteady]
    prevPlanes := [planeScan]
    surfacesNotInuse := []
    markNotInuse := []
    ages := []
    nextSurface := 0
    kmsFence := 0
    lastCommitFailed := false
    requestedVideoEffect := false
    appliedVideoEffect := false
    tracker := t0
    handleDisplayInit := false }

/-- Collaborators that succeed: plane-manager calls keep the given plane
list, the commit returns out-fence 3. -/
def oracle0 : Oracle :=
  { validateLayers := fun _ _ _ c _ s =>
      { render := false
        commitChecked := false
        needsPlaneValidation := false
        planes := c
        surfacesNotInuse := s }
    reValidatePlanes := fun c _ s _ _ =>
      { render := false, forceFull := false, planes := c, surfacesNotInuse := s }
    beginFrameOk := true
    drawOk := true
    commitOk := true
    commitFence := 3 }

/-- Same collaborators but the atomic commit fails. -/
def failOracle : Oracle := { oracle0 with commitOk := false }

/-- An offscreen-composed plane owning surfaces 10, 11, 12. -/
def planeOff3 : PlaneStateM :=
  { planeScan with surfaces := [10, 11, 12], needsOffScreen := true, scanout := false }

/-- A tracker whose idle counter has already passed kidleframes = 3. -/
def t4 : Tracker := { t0 with totalPlanes := 2, idleFrames := 4 }

/-- The steady queue with kNeedsColorCorrection pending. -/
def qNC : Queue :=
  { steadyQ with stateWord := { sw0 with needsColorCorrection := true } }

/-- The steady queue with the display in cloned mode. -/
def steadyQC : Queue :=
  { steadyQ with stateWord := { sw0 with clonedMode := true } }

/-! Helper lemmas about the phases of QueueUpdate. -/

lemma phase1_trace_eq (q : Queue) (inp : List HwcLayerM) (iu : Bool) :
    (phase1 q inp iu).trace = { updateLayerPixelData := (phase1 q inp iu).handleRaw } := by
  simp [phase1]

lemma phase1_out (q : Queue) (inp : List HwcLayerM) (iu : Bool) :
    (phase1 q inp iu).out = resetFences inp := by
  have hstep : ∀ (v : Bool) (ifl : List OverlayLayerM) (s : LoopSt) (idx : Nat)
      (l : HwcLayerM),
      (buildStep v ifl s idx l).out = s.out ++ [{ l with releaseFence := -1 }] := by
    intro v ifl s idx l
    simp only [buildStep]
    repeat' split
    all_goals rfl
  have hgo : ∀ (v : Bool) (ifl : List OverlayLayerM) (L : List HwcLayerM)
      (s : LoopSt) (idx : Nat),
      (buildGo v ifl s idx L).out = s.out ++ resetFences L := by
    intro v ifl L
    induction L with
    | nil => intro s idx; simp [buildGo, resetFences]
    | cons l L ih =>
      intro s idx
      simp [buildGo, ih, hstep, resetFences]
  simp [phase1, buildLoop, hgo, loopInit, resetFences]

lemma rp_trace (o : Oracle) (p : P1) (f : FullOut) :
    (renderPhase o p f).2.committed = f.trace.committed ∧
    (renderPhase o p f).2.colorPushed = f.trace.colorPushed ∧
    (renderPhase o p f).2.distributed = f.trace.distributed ∧
    (renderPhase o p f).2.fullValidation = f.trace.fullValidation := by
  simp only [renderPhase]
  split
  · split
    · exact ⟨rfl, rfl, rfl, rfl⟩
    · split
      · exact ⟨rfl, rfl, rfl, rfl⟩
      · exact ⟨rfl, rfl, rfl, rfl⟩
  · split
    · exact ⟨rfl, rfl, rfl, rfl⟩
    · exact ⟨rfl, rfl, rfl, rfl⟩

lemma fp_trace (o : Oracle) (q : Queue) (p : P1) (i : IncrOut) :
    (fullPhase o q p i).trace.committed = p.trace.committed ∧
    (fullPhase o q p i).trace.colorPushed = p.trace.colorPushed ∧
    (fullPhase o q p i).trace.distributed = p.trace.distributed := by
  simp only [fullPhase]
  split
  · exact ⟨rfl, rfl, rfl⟩
  · exact ⟨rfl, rfl, rfl⟩

lemma fp_trace2 (o : Oracle) (q : Queue) (p : P1) (i : IncrOut) :
    (fullPhase o q p i).trace.draw = p.trace.draw ∧
    (fullPhase o q p i).trace.beginFrame = p.trace.beginFrame := by
  simp only [fullPhase]
  split
  · exact ⟨rfl, rfl⟩
  · exact ⟨rfl, rfl⟩

lemma fp_state (o : Oracle) (q : Queue) (p : P1) (i : IncrOut) :
    (fullPhase o q p i).stateWord.needsColorCorrection =
      q.stateWord.needsColorCorrection ∧
    (fullPhase o q p i).stateWord.clonedMode = q.stateWord.clonedMode := by
  simp only [fullPhase]
  split
  · exact ⟨rfl, rfl⟩
  · exact ⟨rfl, rfl⟩

lemma fp_config (o : Oracle) (q : Queue) (p : P1) (i : IncrOut)
    (hv : i.validate = true) :
    (fullPhase o q p i).stateWord.configurationChanged = false := by
  simp [fullPhase, hv]

lemma fp_fv (o : Oracle) (q : Queue) (p : P1) (i : IncrOut)
    (hv : i.validate = false) :
    (fullPhase o q p i).trace.fullValidation = p.trace.fullValidation := by
  simp [fullPhase, hv]

lemma rs_facts (st : StateWord) (tr : Trace) :
    (ReleaseSurfaces st tr).1.needsColorCorrection = st.needsColorCorrection ∧
    (ReleaseSurfaces st tr).1.configurationChanged = st.configurationChanged ∧
    (ReleaseSurfaces st tr).1.clonedMode = st.clonedMode ∧
    (ReleaseSurfaces st tr).2.committed = tr.committed ∧
    (ReleaseSurfaces st tr).2.colorPushed = tr.colorPushed ∧
    (ReleaseSurfaces st tr).2.distributed = tr.distributed ∧
    (ReleaseSurfaces st tr).2.fullValidation = tr.fullValidation ∧
    (ReleaseSurfaces st tr).2.draw = tr.draw ∧
    (ReleaseSurfaces st tr).2.beginFrame = tr.beginFrame :=
  ⟨rfl, rfl, rfl, rfl, rfl, rfl, rfl, rfl, rfl⟩

lemma rsan_facts (b : Bool) (st : StateWord) (tr : Trace) :
    (ReleaseSurfacesAsNeeded b st tr).1.needsColorCorrection =
      st.needsColorCorrection ∧
    (ReleaseSurfacesAsNeeded b st tr).1.configurationChanged =
      st.configurationChanged ∧
    (ReleaseSurfacesAsNeeded b st tr).1.clonedMode = st.clonedMode ∧
    (ReleaseSurfacesAsNeeded b st tr).2.committed = tr.committed ∧
    (ReleaseSurfacesAsNeeded b st tr).2.colorPushed = tr.colorPushed ∧
    (ReleaseSurfacesAsNeeded b st tr).2.distributed = tr.distributed ∧
    (ReleaseSurfacesAsNeeded b st tr).2.fullValidation = tr.fullValidation ∧
    (ReleaseSurfacesAsNeeded b st tr).2.draw = tr.draw ∧
    (ReleaseSurfacesAsNeeded b st tr).2.beginFrame = tr.beginFrame := by
  simp only [ReleaseSurfacesAsNeeded, ReleaseSurfaces]
  split
  · split
    · split
      · exact ⟨rfl, rfl, rfl, rfl, rfl, rfl, rfl, rfl, rfl⟩
      · exact ⟨rfl, rfl, rfl, rfl, rfl, rfl, rfl, rfl, rfl⟩
    · split
      · exact ⟨rfl, rfl, rfl, rfl, rfl, rfl, rfl, rfl, rfl⟩
      · exact ⟨rfl, rfl, rfl, rfl, rfl, rfl, rfl, rfl, rfl⟩
  · split
    · split
      · exact ⟨rfl, rfl, rfl, rfl, rfl, rfl, rfl, rfl, rfl⟩
      · exact ⟨rfl, rfl, rfl, rfl, rfl, rfl, rfl, rfl, rfl⟩
    · split
      · exact ⟨rfl, rfl, rfl, rfl, rfl, rfl, rfl, rfl, rfl⟩
      · exact ⟨rfl, rfl, rfl, rfl, rfl, rfl, rfl, rfl, rfl⟩

lemma cp_fail (o : Oracle) (db : Bool) (q : Queue) (p : P1) (f : FullOut)
    (tr0 : Trace) (hc : o.commitOk = false) :
    (commitPhase o db q p f tr0).ok = false ∧
    (commitPhase o db q p f tr0).outLayers = p.out ∧
    (commitPhase o db q p f tr0).trace.distributed = tr0.distributed ∧
    (commitPhase o db q p f tr0).retire = -1 ∧
    ((commitPhase o db q p f tr0).q.kmsFence = 0 ∨
     (commitPhase o db q p f tr0).q.kmsFence = q.kmsFence) := by
  by_cases hcc : f.stateWord.needsColorCorrection = true <;>
  by_cases hdbq : (!db && q.kmsFence > 0) = true <;>
  simp [commitPhase, hc, hcc, hdbq]

lemma cp_ok_ok (o : Oracle) (db : Bool) (q : Queue) (p : P1) (f : FullOut)
    (tr0 : Trace) (hc : o.commitOk = true) :
    (commitPhase o db q p f tr0).ok = true := by
  simp only [commitPhase, hc]
  simp

lemma cp_ok_committed (o : Oracle) (db : Bool) (q : Queue) (p : P1) (f : FullOut)
    (tr0 : Trace) (hc : o.commitOk = true) :
    (commitPhase o db q p f tr0).trace.committed = true := by
  by_cases hcc : f.stateWord.needsColorCorrection = true <;>
  by_cases hfp : 0 < o.commitFence <;>
  by_cases hip : p.idleFrame = true <;>
  by_cases hq : q.handleDisplayInit = true <;>
  simp [commitPhase, hc, hcc, hfp, hip, hq, rs_facts, rsan_facts]

lemma cp_ok_outFence (o : Oracle) (db : Bool) (q : Queue) (p : P1) (f : FullOut)
    (tr0 : Trace) (hc : o.commitOk = true) :
    (commitPhase o db q p f tr0).outFence = o.commitFence := by
  simp only [commitPhase, hc]
  simp

lemma cp_ok_fullValidation (o : Oracle) (db : Bool) (q : Queue) (p : P1)
    (f : FullOut) (tr0 : Trace) (hc : o.commitOk = true) :
    (commitPhase o db q p f tr0).trace.fullValidation = tr0.fullValidation := by
  by_cases hcc : f.stateWord.needsColorCorrection = true <;>
  by_cases hfp : 0 < o.commitFence <;>
  by_cases hip : p.idleFrame = true <;>
  by_cases hq : q.handleDisplayInit = true <;>
  simp [commitPhase, hc, hcc, hfp, hip, hq, rs_facts, rsan_facts]

lemma cp_ok_needsColor (o : Oracle) (db : Bool) (q : Queue) (p : P1)
    (f : FullOut) (tr0 : Trace) (hc : o.commitOk = true) :
    (commitPhase o db q p f tr0).q.stateWord.needsColorCorrection = false := by
  by_cases hcc : f.stateWord.needsColorCorrection = true <;>
  by_cases hfp : 0 < o.commitFence <;>
  by_cases hip : p.idleFrame = true <;>
  simp [commitPhase, hc, hcc, hfp, hip, rs_facts, rsan_facts]

lemma cp_ok_config (o : Oracle) (db : Bool) (q : Queue) (p : P1)
    (f : FullOut) (tr0 : Trace) (hc : o.commitOk = true) :
    (commitPhase o db q p f tr0).q.stateWord.configurationChanged =
      f.stateWord.configurationChanged := by
  by_cases hcc : f.stateWord.needsColorCorrection = true <;>
  by_cases hfp : 0 < o.commitFence <;>
  by_cases hip : p.idleFrame = true <;>
  simp [commitPhase, hc, hcc, hfp, hip, rs_facts, rsan_facts]

lemma cp_ok_cloned (o : Oracle) (db : Bool) (q : Queue) (p : P1)
    (f : FullOut) (tr0 : Trace) (hc : o.commitOk = true) :
    (commitPhase o db q p f tr0).q.stateWord.clonedMode =
      f.stateWord.clonedMode := by
  by_cases hcc : f.stateWord.needsColorCorrection = true <;>
  by_cases hfp : 0 < o.commitFence <;>
  by_cases hip : p.idleFrame = true <;>
  simp [commitPhase, hc, hcc, hfp, hip, rs_facts, rsan_facts]

lemma cp_ok_colorPushed (o : Oracle) (db : Bool) (q : Queue) (p : P1)
    (f : FullOut) (tr0 : Trace) (hc : o.commitOk = true)
    (hcc : f.stateWord.needsColorCorrection = true) :
    (commitPhase o db q p f tr0).trace.colorPushed = true := by
  by_cases hfp : 0 < o.commitFence <;>
  by_cases hip : p.idleFrame = true <;>
  by_cases hq : q.handleDisplayInit = true <;>
  simp [commitPhase, hc, hcc, hfp, hip, hq, rs_facts, rsan_facts]

lemma cp_ok_distributed_pos (o : Oracle) (db : Bool) (q : Queue) (p : P1)
    (f : FullOut) (tr0 : Trace) (hc : o.commitOk = true)
    (hfp : 0 < o.commitFence) :
    (commitPhase o db q p f tr0).trace.distributed = true := by
  by_cases hcc : f.stateWord.needsColorCorrection = true <;>
  by_cases hip : p.idleFrame = true <;>
  by_cases hq : q.handleDisplayInit = true <;>
  simp [commitPhase, hc, hcc, hfp, hip, hq, rs_facts, rsan_facts]

lemma cp_ok_nofence (o : Oracle) (db : Bool) (q : Queue) (p : P1)
    (f : FullOut) (tr0 : Trace) (hc : o.commitOk = true)
    (hfp : ¬ 0 < o.commitFence) :
    (commitPhase o db q p f tr0).trace.distributed = tr0.distributed ∧
    (commitPhase o db q p f tr0).outLayers = p.out ∧
    (commitPhase o db q p f tr0).retire = -1 := by
  by_cases hcc : f.stateWord.needsColorCorrection = true <;>
  by_cases hip : p.idleFrame = true <;>
  by_cases hq : q.handleDisplayInit = true <;>
  simp [commitPhase, hc, hcc, hfp, hip, hq, rs_facts, rsan_facts]

lemma cp_fail_outFence (o : Oracle) (db : Bool) (q : Queue) (p : P1)
    (f : FullOut) (tr0 : Trace) (hc : o.commitOk = false) :
    (commitPhase o db q p f tr0).outFence = 0 := by
  simp only [commitPhase, hc]
  simp

lemma cp_ok_retire_cloned (o : Oracle) (db : Bool) (q : Queue) (p : P1)
    (f : FullOut) (tr0 : Trace) (hc : o.commitOk = true)
    (hcl : f.stateWord.clonedMode = true) :
    (commitPhase o db q p f tr0).retire = -1 := by
  by_cases hcc : f.stateWord.needsColorCorrection = true <;>
  by_cases hfp : 0 < o.commitFence <;>
  by_cases hip : p.idleFrame = true <;>
  simp [commitPhase, hc, hcc, hfp, hip, hcl, rs_facts, rsan_facts]

lemma cp_ok_kms (o : Oracle) (db : Bool) (q : Queue) (p : P1)
    (f : FullOut) (tr0 : Trace) (hc : o.commitOk = true) :
    (commitPhase o db q p f tr0).q.kmsFence = 0 ∨
    (commitPhase o db q p f tr0).q.kmsFence = q.kmsFence ∨
    ((commitPhase o db q p f tr0).q.kmsFence = o.commitFence ∧
     0 < o.commitFence ∧ (commitPhase o db q p f tr0).trace.distributed = true) := by
  by_cases hdb : db = true <;>
  by_cases hfp : 0 < o.commitFence <;>
  by_cases hqk : 0 < q.kmsFence <;>
  by_cases hcc : f.stateWord.needsColorCorrection = true <;>
  by_cases hip : p.idleFrame = true <;>
  by_cases hq : q.handleDisplayInit = true <;>
  simp [commitPhase, hc, hdb, hfp, hqk, hcc, hip, hq, rs_facts, rsan_facts]

lemma rp_no_draw (o : Oracle) (p : P1) (f : FullOut)
    (hrp : (renderPhase o p f).1 = false) (hdf : o.drawOk = false) :
    (renderPhase o p f).2.draw = f.trace.draw := by
  by_cases hren : f.render = true
  · by_cases hbf : o.beginFrameOk = true
    · simp [renderPhase, hren, hbf, hdf] at hrp
    · have hbf2 := Bool.eq_false_iff.mpr hbf
      simp [renderPhase, hren, hbf2] at hrp
  · have hren2 := Bool.eq_false_iff.mpr hren
    by_cases hraw : p.handleRaw = true
    · simp [renderPhase, hren2, hraw]
    · have hraw2 := Bool.eq_false_iff.mpr hraw
      simp [renderPhase, hren2, hraw2]

lemma rp_no_bf (o : Oracle) (p : P1) (f : FullOut)
    (hrp : (renderPhase o p f).1 = false) (hbf : o.beginFrameOk = false) :
    (renderPhase o p f).2.beginFrame = f.trace.beginFrame := by
  by_cases hren : f.render = true
  · simp [renderPhase, hren, hbf] at hrp
  · have hren2 := Bool.eq_false_iff.mpr hren
    by_cases hraw : p.handleRaw = true
    · simp [renderPhase, hren2, hraw]
    · have hraw2 := Bool.eq_false_iff.mpr hraw
      simp [renderPhase, hren2, hraw2]

lemma cp_trace_pres (o : Oracle) (db : Bool) (q : Queue) (p : P1) (f : FullOut)
    (tr0 : Trace) :
    (commitPhase o db q p f tr0).trace.draw = tr0.draw ∧
    (commitPhase o db q p f tr0).trace.beginFrame = tr0.beginFrame := by
  cases hc : o.commitOk <;>
  by_cases hcc : f.stateWord.needsColorCorrection = true <;>
  by_cases hfp : 0 < o.commitFence <;>
  by_cases hip : p.idleFrame = true <;>
  by_cases hq : q.handleDisplayInit = true <;>
  simp [commitPhase, hc, hcc, hfp, hip, hq, rs_facts, rsan_facts]

/-- C1: a QueueUpdate in which the GPU composition pass or the display
commit fails returns failure (BeginFrame / Draw failure and Commit
failure each force a failing return), sets last_commit_failed_update_,
leaves in_flight_layers_ and previous_plane_state_ unchanged, and the
next call's initial validate_layers computation yields true, forcing full
validation. -/
theorem C1_failed_update_no_partial_state (o : Oracle) (db : Bool) (q : Queue)
    (inp : List HwcLayerM) (iu : Bool) (ri : Int) :
    ((QueueUpdate o db q inp iu ri).ok = false →
      ((QueueUpdate o db q inp iu ri).q.lastCommitFailed = true ∧
       (QueueUpdate o db q inp iu ri).q.inFlight = q.inFlight ∧
       (QueueUpdate o db q inp iu ri).q.prevPlanes = q.prevPlanes ∧
       initialValidateLayers (QueueUpdate o db q inp iu ri).q = true)) ∧
    (o.commitOk = false → (QueueUpdate o db q inp iu ri).trace.committed = true →
      (QueueUpdate o db q inp iu ri).ok = false) ∧
    (o.drawOk = false → (QueueUpdate o db q inp iu ri).trace.draw = true →
      (QueueUpdate o db q inp iu ri).ok = false) ∧
    (o.beginFrameOk = false →
      (QueueUpdate o db q inp iu ri).trace.beginFrame = true →
      (QueueUpdate o db q inp iu ri).ok = false) := by
  by_cases hig : IgnoreUpdate q.tracker
  · refine ⟨?_, ?_, ?_, ?_⟩
    · intro h
      simp [QueueUpdate, hig] at h
    · intro hcf hcm
      simp [QueueUpdate, hig] at hcm
    · intro hdf hdr
      simp [QueueUpdate, hig] at hdr
    · intro hbf hb
      simp [QueueUpdate, hig] at hb
  · have hig2 := Bool.eq_false_iff.mpr hig
    by_cases he : (incrPhase o q (phase1 q inp iu) (surfOf q)).earlySuccess = true
    · refine ⟨?_, ?_, ?_, ?_⟩
      · intro h
        simp [QueueUpdate, hig2, he] at h
      · intro hcf hcm
        simp [QueueUpdate, hig2, he, phase1_trace_eq] at hcm
      · intro hdf hdr
        simp [QueueUpdate, hig2, he, phase1_trace_eq] at hdr
      · intro hbf hb
        simp [QueueUpdate, hig2, he, phase1_trace_eq] at hb
    · have he2 := Bool.eq_false_iff.mpr he
      by_cases hr : (renderPhase o (phase1 q inp iu)
          (fullPhase o q (phase1 q inp iu)
            (incrPhase o q (phase1 q inp iu) (surfOf q)))).1 = true
      · refine ⟨?_, ?_, ?_, ?_⟩
        · intro h
          simp [QueueUpdate, hig2, he2, hr, initialValidateLayers]
        · intro hcf hcm
          simp [QueueUpdate, hig2, he2, hr]
        · intro hdf hdr
          simp [QueueUpdate, hig2, he2, hr]
        · intro hbf hb
          simp [QueueUpdate, hig2, he2, hr]
      · have hr2 := Bool.eq_false_iff.mpr hr
        have hQ : QueueUpdate o db q inp iu ri =
            commitPhase o db q (phase1 q inp iu)
              (fullPhase o q (phase1 q inp iu)
                (incrPhase o q (phase1 q inp iu) (surfOf q)))
              (renderPhase o (phase1 q inp iu)
                (fullPhase o q (phase1 q inp iu)
                  (incrPhase o q (phase1 q inp iu) (surfOf q)))).2 := by
          simp [QueueUpdate, hig2, he2, hr2]
        refine ⟨?_, ?_, ?_, ?_⟩
        · intro h
          rw [hQ] at h ⊢
          by_cases hc : o.commitOk = true
          · rw [cp_ok_ok o db q (phase1 q inp iu)
              (fullPhase o q (phase1 q inp iu)
                (incrPhase o q (phase1 q inp iu) (surfOf q)))
              (renderPhase o (phase1 q inp iu)
                (fullPhase o q (phase1 q inp iu)
                  (incrPhase o q (phase1 q inp iu) (surfOf q)))).2 hc] at h
            exact absurd h (by decide)
          · have hc2 := Bool.eq_false_iff.mpr hc
            refine ⟨?_, ?_, ?_, ?_⟩ <;>
            by_cases hcc : (fullPhase o q (phase1 q inp iu)
                (incrPhase o q (phase1 q inp iu) (surfOf q))).stateWord.needsColorCorrection = true <;>
            by_cases hdbq : (!db && q.kmsFence > 0) = true <;>
            simp [commitPhase, hc2, hcc, hdbq, initialValidateLayers]
        · intro hcf hcm
          rw [hQ]
          exact (cp_fail o db q (phase1 q inp iu)
            (fullPhase o q (phase1 q inp iu)
              (incrPhase o q (phase1 q inp iu) (surfOf q)))
            (renderPhase o (phase1 q inp iu)
              (fullPhase o q (phase1 q inp iu)
                (incrPhase o q (phase1 q inp iu) (surfOf q)))).2 hcf).1
        · intro hdf hdr
          rw [hQ] at hdr
          rw [(cp_trace_pres o db q (phase1 q inp iu)
            (fullPhase o q (phase1 q inp iu)
              (incrPhase o q (phase1 q inp iu) (surfOf q)))
            (renderPhase o (phase1 q inp iu)
              (fullPhase o q (phase1 q inp iu)
                (incrPhase o q (phase1 q inp iu) (surfOf q)))).2).1,
            rp_no_draw o (phase1 q inp iu)
              (fullPhase o q (phase1 q inp iu)
                (incrPhase o q (phase1 q inp iu) (surfOf q))) hr2 hdf,
            (fp_trace2 o q (phase1 q inp iu)
              (incrPhase o q (phase1 q inp iu) (surfOf q))).1,
            phase1_trace_eq] at hdr
          simp at hdr
        · intro hbf hb
          rw [hQ] at hb
          rw [(cp_trace_pres o db q (phase1 q inp iu)
            (fullPhase o q (phase1 q inp iu)
              (incrPhase o q (phase1 q inp iu) (surfOf q)))
            (renderPhase o (phase1 q inp iu)
              (fullPhase o q (phase1 q inp iu)
                (incrPhase o q (phase1 q inp iu) (surfOf q)))).2).2,
            rp_no_bf o (phase1 q inp iu)
              (fullPhase o q (phase1 q inp iu)
                (incrPhase o q (phase1 q inp iu) (surfOf q))) hr2 hbf,
            (fp_trace2 o q (phase1 q inp iu)
              (incrPhase o q (phase1 q inp iu) (surfOf q))).2,
            phase1_trace_eq] at hb
          simp at hb

/-- C1 witness: a concrete frame whose display commit fails returns
failure with last_commit_failed_update_ set, in-flight layers and plane
state untouched, and the next initial validate_layers true. -/
theorem C1_failed_update_no_partial_state_witness :
    (QueueUpdate failOracle false steadyQ [hlChanged] false (-1)).ok = false ∧
    (QueueUpdate failOracle false steadyQ [hlChanged] false (-1)).q.lastCommitFailed = true ∧
    (QueueUpdate failOracle false steadyQ [hlChanged] false (-1)).q.inFlight = steadyQ.inFlight ∧
    (QueueUpdate failOracle false steadyQ [hlChanged] false (-1)).q.prevPlanes = steadyQ.prevPlanes ∧
    initialValidateLayers (QueueUpdate failOracle false steadyQ [hlChanged] false (-1)).q = true := by
  have h2 := (C1_failed_update_no_partial_state failOracle false steadyQ
    [hlChanged] false (-1)).2.1 rfl rfl
  have h := (C1_failed_update_no_partial_state failOracle false steadyQ
    [hlChanged] false (-1)).1 h2
  exact ⟨h2, h.1, h.2.1, h.2.2.1, h.2.2.2⟩

/-- C2: a QueueUpdate that takes the incremental path (validate_layers
false) in which GetCachedLayers reports can_ignore_commit without forcing
full validation, with no added layers, no commit revalidation, no plane
validation and no forced media composition, swaps the freshly built layer
list into in_flight_layers_ and returns success without invoking the
display Commit, the GPU composition pass, or release-fence
distribution. -/
theorem C2_can_ignore_commit_early_success (o : Oracle) (db : Bool) (q : Queue)
    (inp : List HwcLayerM) (iu : Bool) (ri : Int)
    (hig : IgnoreUpdate q.tracker = false)
    (hval : (phase1 q inp iu).validate = false)
    (hff : (GetCachedLayers q (surfOf q) (phase1 q inp iu).layers
      (phase1 q inp iu).removeIndex).forceFull = false)
    (hci : (GetCachedLayers q (surfOf q) (phase1 q inp iu).layers
      (phase1 q inp iu).removeIndex).canIgnore = true)
    (hadd : ¬ (0 < (phase1 q inp iu).addIndex))
    (hrv : (phase1 q inp iu).reValidate = false)
    (hpv : (GetCachedLayers q (surfOf q) (phase1 q inp iu).layers
      (phase1 q inp iu).removeIndex).planeValidation = false)
    (hfm : (phase1 q inp iu).forceMedia = false) :
    (QueueUpdate o db q inp iu ri).ok = true ∧
    (QueueUpdate o db q inp iu ri).q.inFlight = (phase1 q inp iu).layers ∧
    (QueueUpdate o db q inp iu ri).q.prevPlanes = q.prevPlanes ∧
    (QueueUpdate o db q inp iu ri).trace.committed = false ∧
    (QueueUpdate o db q inp iu ri).trace.beginFrame = false ∧
    (QueueUpdate o db q inp iu ri).trace.draw = false ∧
    (QueueUpdate o db q inp iu ri).trace.distributed = false := by
  have hIncr : (incrPhase o q (phase1 q inp iu) (surfOf q)).earlySuccess = true := by
    simp [incrPhase, hval, hff, hci, hadd, hrv, hpv, hfm]
  simp [QueueUpdate, hig, hIncr, phase1_trace_eq]

/-- C2 witness: two identical single-layer frames — the steady queue
already holds the committed frame, the second identical frame takes the
incremental path with can_ignore_commit and produces no commit. -/
theorem C2_can_ignore_commit_early_success_witness :
    (QueueUpdate oracle0 false steadyQ [hlSteady] false (-1)).ok = true ∧
    (QueueUpdate oracle0 false steadyQ [hlSteady] false (-1)).trace.committed = false ∧
    (QueueUpdate oracle0 false steadyQ [hlSteady] false (-1)).trace.draw = false ∧
    (QueueUpdate oracle0 false steadyQ [hlSteady] false (-1)).trace.distributed = false := by
  have h := C2_can_ignore_commit_early_success oracle0 false steadyQ [hlSteady]
    false (-1) rfl rfl rfl rfl (by decide) rfl rfl rfl
  exact ⟨h.1, h.2.2.2.1, h.2.2.2.2.2.1, h.2.2.2.2.2.2⟩

/-- C3 counterexample: a committed plane holding exactly one surface is
assigned age 2 by the aging pass, which is not a permutation of the set
of ages 0 to 0, contradicting the claim for surface counts in the set
containing 1 and 3. -/
theorem C3_single_surface_not_permutation :
    planeOff1.surfaces.length = 1 ∧
    getAge (UpdateOnScreenSurfaces [planeOff1] []) 5 = 2 ∧
    ¬ List.Perm [getAge (UpdateOnScreenSurfaces [planeOff1] []) 5] [(0 : Int)] := by
  decide

/-- C3 amended: UpdateOnScreenSurfaces assigns ages so that a plane with
exactly 3 surfaces gets surface[0]=2, surface[1]=0, surface[2]=1 — a
permutation of ages 0, 1, 2 — and any other surface count gets age 2 − i
at index i; in particular a single surface gets age 2, not a permutation
of the singleton age set. -/
theorem C3_surface_aging_amended (pl : PlaneStateM) (ages : List (Nat × Int))
    (a b c : Nat) :
    (pl.surfaces = [a, b, c] → a ≠ b → a ≠ c → b ≠ c →
      [getAge (UpdateOnScreenSurfaces [pl] ages) a,
       getAge (UpdateOnScreenSurfaces [pl] ages) b,
       getAge (UpdateOnScreenSurfaces [pl] ages) c] = [2, 0, 1] ∧
      List.Perm
        [getAge (UpdateOnScreenSurfaces [pl] ages) a,
         getAge (UpdateOnScreenSurfaces [pl] ages) b,
         getAge (UpdateOnScreenSurfaces [pl] ages) c] [0, 1, 2]) ∧
    (pl.surfaces = [a] → getAge (UpdateOnScreenSurfaces [pl] ages) a = 2) ∧
    (∀ n : Nat, n ≠ 3 →
      agesFor n = (List.range n).map (fun i => (2 : Int) - (i : Int))) := by
  refine ⟨?_, ?_, ?_⟩
  · intro h hab hac hbc
    have e3 : agesFor 3 = [2, 0, 1] := by decide
    have h1 : (c == a) = false := beq_eq_false_iff_ne.mpr (Ne.symm hac)
    have h2 : (b == a) = false := beq_eq_false_iff_ne.mpr (Ne.symm hab)
    have h3 : (c == b) = false := beq_eq_false_iff_ne.mpr (Ne.symm hbc)
    have h4 : (b != c) = true := bne_iff_ne.mpr hbc
    have h5 : (a != b) = true := bne_iff_ne.mpr hab
    have h6 : (a != c) = true := bne_iff_ne.mpr hac
    have hg : [getAge (UpdateOnScreenSurfaces [pl] ages) a,
       getAge (UpdateOnScreenSurfaces [pl] ages) b,
       getAge (UpdateOnScreenSurfaces [pl] ages) c] = [2, 0, 1] := by
      simp [UpdateOnScreenSurfaces, h, e3, getAge, setAge, List.find?,
        List.filter, h1, h2, h3, h4, h5, h6]
    exact ⟨hg, by rw [hg]; decide⟩
  · intro h
    have e1 : agesFor 1 = [2] := by decide
    simp [UpdateOnScreenSurfaces, h, e1, getAge, setAge, List.find?]
  · intro n hn
    simp [agesFor, hn]

/-- C3 witness: the triple-surface rotation on a concrete plane yields
ages 2, 0, 1 — a permutation of 0, 1, 2. -/
theorem C3_surface_aging_amended_witness :
    planeOff3.surfaces = [10, 11, 12] ∧
    ([getAge (UpdateOnScreenSurfaces [planeOff3] []) 10,
      getAge (UpdateOnScreenSurfaces [planeOff3] []) 11,
      getAge (UpdateOnScreenSurfaces [planeOff3] []) 12] = [2, 0, 1] ∧
     List.Perm
       [getAge (UpdateOnScreenSurfaces [planeOff3] []) 10,
        getAge (UpdateOnScreenSurfaces [planeOff3] []) 11,
        getAge (UpdateOnScreenSurfaces [planeOff3] []) 12] [0, 1, 2]) := by
  exact ⟨rfl, (C3_surface_aging_amended planeOff3 [] 10 11 12).1 rfl
    (by decide) (by decide) (by decide)⟩

/-- C4 counterexample: with none of the claimed no-op conditions holding
(no composition in progress, more than one plane, no tracking or
revalidation, no cursor) but the idle counter already past kidleframes,
HandleIdleCase returns without incrementing the counter, contradicting
the claim that it is otherwise always incremented. -/
theorem C4_no_increment_past_kidleframes :
    t4.prepareComposition = false ∧ 1 < t4.totalPlanes ∧
    t4.trackingFrames = false ∧ t4.revalidateLayers = false ∧
    t4.hasCursorLayer = false ∧
    (HandleIdleCase 3 true sw0 t4).1.idleFrames = t4.idleFrames ∧
    ¬ ((HandleIdleCase 3 true sw0 t4).1.idleFrames = t4.idleFrames + 1) := by
  decide

/-- C4 amended: HandleIdleCase is a no-op when composition is being
prepared, at most one plane is in use, the tracker is tracking or
revalidating, a cursor layer is present, or the idle counter has already
passed kidleframes; otherwise the counter is incremented and the refresh
callback fires (setting PrepareIdleComposition) exactly on the call whose
entry counter equals kidleframes, only when the display is powered on,
IgnoreIdleRefresh is clear and a callback is registered; a call that
fired leaves the counter past kidleframes so the next call cannot fire
again. -/
theorem C4_handle_idle_case_amended (k : Nat) (cb : Bool) (st : StateWord)
    (t : Tracker) :
    (t.prepareComposition = true → HandleIdleCase k cb st t = (t, false)) ∧
    (t.prepareComposition = false →
      (t.totalPlanes ≤ 1 ∨ t.trackingFrames = true ∨ t.revalidateLayers = true ∨
        t.hasCursorLayer = true) →
      HandleIdleCase k cb st t = (t, false)) ∧
    (t.prepareComposition = false → 1 < t.totalPlanes → t.trackingFrames = false →
      t.revalidateLayers = false → t.hasCursorLayer = false →
      ((k < t.idleFrames → HandleIdleCase k cb st t = (t, false)) ∧
       (t.idleFrames < k →
         HandleIdleCase k cb st t = ({ t with idleFrames := t.idleFrames + 1 }, false)) ∧
       (t.idleFrames = k → st.ignoreIdleRefresh = false → cb = true →
         st.poweredOn = true →
         HandleIdleCase k cb st t =
           ({ t with idleFrames := k + 1, prepareIdleComposition := true }, true)) ∧
       (t.idleFrames = k →
         ¬(st.ignoreIdleRefresh = false ∧ cb = true ∧ st.poweredOn = true) →
         HandleIdleCase k cb st t = ({ t with idleFrames := k + 1 }, false)))) ∧
    ((HandleIdleCase k cb st t).2 = true →
      (t.idleFrames = k ∧ st.poweredOn = true ∧ st.ignoreIdleRefresh = false ∧
       (HandleIdleCase k cb st (HandleIdleCase k cb st t).1).2 = false)) := by
  refine ⟨?_, ?_, ?_, ?_⟩
  · intro h
    simp [HandleIdleCase, h]
  · intro h h2
    have hle : (t.totalPlanes ≤ 1 || t.trackingFrames || t.revalidateLayers ||
        t.hasCursorLayer) = true := by
      rcases h2 with h2 | h2 | h2 | h2 <;> simp [h2]
    simp [HandleIdleCase, h, hle]
  · intro h hp htf hrv hc
    have hle : (t.totalPlanes ≤ 1 || t.trackingFrames || t.revalidateLayers ||
        t.hasCursorLayer) = false := by
      simp [htf, hrv, hc]
      omega
    refine ⟨?_, ?_, ?_, ?_⟩
    · intro hlt
      simp [HandleIdleCase, h, hle, hlt]
    · intro hlt
      have hng : ¬ (t.idleFrames > k) := by omega
      simp [HandleIdleCase, h, hle, hng, hlt]
    · intro heq hig hcb hpw
      have hng : ¬ (t.idleFrames > k) := by omega
      have hnl : ¬ (t.idleFrames < k) := by omega
      simp [HandleIdleCase, h, hle, hng, hnl, hig, hcb, hpw, heq]
    · intro heq hng2
      have hng : ¬ (t.idleFrames > k) := by omega
      have hnl : ¬ (t.idleFrames < k) := by omega
      have hcond : (!st.ignoreIdleRefresh && cb && st.poweredOn) = false := by
        cases hi : st.ignoreIdleRefresh
        · cases hb : cb
          · simp
          · cases hw : st.poweredOn
            · simp
            · exact absurd ⟨hi, hb, hw⟩ hng2
        · simp
      simp [HandleIdleCase, h, hle, hng, hnl, hcond, heq]
  · intro hf
    by_cases h1 : t.prepareComposition
    · simp [HandleIdleCase, h1] at hf
    · by_cases h2 : (t.totalPlanes ≤ 1 || t.trackingFrames || t.revalidateLayers ||
        t.hasCursorLayer) = true
      · simp [HandleIdleCase, h1, h2] at hf
      · have h2f := Bool.eq_false_iff.mpr h2
        by_cases h3 : t.idleFrames > k
        · simp [HandleIdleCase, h1, h2f, h3] at hf
        · by_cases h4 : t.idleFrames < k
          · simp [HandleIdleCase, h1, h2f, h3, h4] at hf
          · have heq : t.idleFrames = k := by omega
            by_cases h5 : (!st.ignoreIdleRefresh && cb && st.poweredOn) = true
            · have hig : st.ignoreIdleRefresh = false := by
                cases hi : st.ignoreIdleRefresh
                · rfl
                · rw [hi] at h5
                  simp at h5
              have hpw : st.poweredOn = true := by
                cases hw : st.poweredOn
                · rw [hw] at h5
                  simp at h5
                · rfl
              refine ⟨heq, hpw, hig, ?_⟩
              have hres : (HandleIdleCase k cb st t).1 =
                  { t with idleFrames := t.idleFrames + 1, prepareIdleComposition := true } := by
                simp [HandleIdleCase, h1, h2f, h3, h4, h5]
              rw [hres]
              have hgt : k < ({ t with idleFrames := t.idleFrames + 1, prepareIdleComposition := true } : Tracker).idleFrames := by
                simp
                omega
              simp [HandleIdleCase, h1, h2f, hgt]
            · have h5f := Bool.eq_false_iff.mpr h5
              simp [HandleIdleCase, h1, h2f, h3, h4, h5f] at hf

/-- C4 witness: with kidleframes = 3, a tracker entering at counter 3
fires the refresh callback and leaves the counter at 4. -/
theorem C4_handle_idle_case_amended_witness :
    (HandleIdleCase 3 true sw0 { t0 with totalPlanes := 2, idleFrames := 3 }).2 = true ∧
    (HandleIdleCase 3 true sw0 { t0 with totalPlanes := 2, idleFrames := 3 }).1.idleFrames = 4 := by
  have h := ((C4_handle_idle_case_amended 3 true sw0
      { t0 with totalPlanes := 2, idleFrames := 3 }).2.2.1
      rfl (by decide) rfl rfl rfl).2.2.1 rfl rfl rfl rfl
  rw [h]
  exact ⟨rfl, rfl⟩

/-- C5 counterexample: SetVideoScalingMode leaves requested_video_effect_
unchanged (the assignment is commented out in the source), so with the
flag clear it does not become true as the claim states. -/
theorem C5_scaling_mode_keeps_effect_flag :
    steadyQ.requestedVideoEffect = false ∧
    (SetVideoScalingMode steadyQ).1.requestedVideoEffect = false ∧
    ¬ ((SetVideoScalingMode steadyQ).1.requestedVideoEffect = true) := by
  decide

/-- C5 amended: SetVideoColor and SetVideoDeinterlace set
requested_video_effect_ to true, SetVideoScalingMode leaves the queue
unchanged, RestoreVideoDefaultColor and RestoreVideoDefaultDeinterlace
clear the flag, and every one of the five operations brackets its body in
the video lock. -/
theorem C5_video_controls_amended (q : Queue) :
    ((SetVideoColor q).1.requestedVideoEffect = true ∧
     (SetVideoColor q).2 = [VideoEv.lock, VideoEv.evSetVideoColor, VideoEv.unlock]) ∧
    ((SetVideoDeinterlace q).1.requestedVideoEffect = true ∧
     (SetVideoDeinterlace q).2 =
       [VideoEv.lock, VideoEv.evSetVideoDeinterlace, VideoEv.unlock]) ∧
    ((SetVideoScalingMode q).1 = q ∧
     (SetVideoScalingMode q).2 =
       [VideoEv.lock, VideoEv.evSetVideoScalingMode, VideoEv.unlock]) ∧
    ((RestoreVideoDefaultColor q).1.requestedVideoEffect = false ∧
     (RestoreVideoDefaultColor q).2 =
       [VideoEv.lock, VideoEv.evRestoreVideoColor, VideoEv.unlock]) ∧
    ((RestoreVideoDefaultDeinterlace q).1.requestedVideoEffect = false ∧
     (RestoreVideoDefaultDeinterlace q).2 =
       [VideoEv.lock, VideoEv.evRestoreVideoDeinterlace, VideoEv.unlock]) :=
  ⟨⟨rfl, rfl⟩, ⟨rfl, rfl⟩, ⟨rfl, rfl⟩, ⟨rfl, rfl⟩, ⟨rfl, rfl⟩⟩

/-- C6 counterexample: after IgnoreUpdates, QueueUpdate returns before
the line that writes -1 through the retire-fence pointer, so the caller's
value (here 7) survives instead of becoming -1. -/
theorem C6_retire_fence_left_unwritten :
    (IgnoreUpdates steadyQ).tracker.ignoreUpdates = true ∧
    (QueueUpdate oracle0 false (IgnoreUpdates steadyQ) [hlSteady] false 7).retire = 7 ∧
    ¬ ((QueueUpdate oracle0 false (IgnoreUpdates steadyQ) [hlSteady] false 7).retire = -1) := by
  refine ⟨rfl, rfl, by decide⟩

/-- C6 amended: once the tracker has IgnoreUpdates set (as IgnoreUpdates()
establishes), every subsequent QueueUpdate returns success immediately —
leaving the caller's retire-fence value unwritten rather than setting it
to -1 — with no commit, no trace events, the input layers untouched, and
the whole queue state unchanged. -/
theorem C6_ignored_updates_amended (o : Oracle) (db : Bool) (q : Queue)
    (inp : List HwcLayerM) (iu : Bool) (ri : Int)
    (h : q.tracker.ignoreUpdates = true) :
    QueueUpdate o db q inp iu ri =
      { ok := true, q := q, retire := ri, outLayers := inp, outFence := 0, trace := {} } ∧
    (IgnoreUpdates q).tracker.ignoreUpdates = true := by
  have hig : IgnoreUpdate q.tracker = true := by simp [IgnoreUpdate, h]
  exact ⟨by simp [QueueUpdate, hig], by simp [IgnoreUpdates]⟩

/-- C6 witness: a concrete ignored update returns success with the queue
and caller values untouched. -/
theorem C6_ignored_updates_amended_witness :
    QueueUpdate oracle0 true (IgnoreUpdates steadyQ) [hlSteady] true 5 =
      { ok := true, q := IgnoreUpdates steadyQ, retire := 5, outLayers := [hlSteady], outFence := 0, trace := {} } :=
  (C6_ignored_updates_amended oracle0 true (IgnoreUpdates steadyQ) [hlSteady]
    true 5 rfl).1

/-- C7: after the layer-building loop, an add_index of 0 or a pre-existing
validate condition forces full validation; otherwise, when the visible
layer count shrank, an unset remove_index becomes the new size and a set
remove_index combined with a set add_index becomes their minimum. -/
theorem C7_diff_index_adjustment (v : Bool) (a r : Int) (s p : Nat) :
    ((a = 0 ∨ v = true) → (adjustIndices v a r s p).1 = true) ∧
    (¬(a = 0 ∨ v = true) → s < p → r = -1 →
      adjustIndices v a r s p = (v, (s : Int))) ∧
    (¬(a = 0 ∨ v = true) → s < p → r ≠ -1 → a ≠ -1 →
      adjustIndices v a r s p = (v, min a r)) := by
  refine ⟨?_, ?_, ?_⟩
  · intro h
    rcases h with h | h
    · simp [adjustIndices, h]
    · simp [adjustIndices, h]
  · intro h hsp hr
    have ha : (a == 0) = false := by
      rcases Bool.eq_false_or_eq_true (a == 0) with h0 | h0
      · exact absurd (Or.inl (beq_iff_eq.mp h0)) h
      · exact h0
    have hv : v = false := by
      rcases Bool.eq_false_or_eq_true v with h0 | h0
      · exact absurd (Or.inr h0) h
      · exact h0
    simp [adjustIndices, ha, hv, hsp, hr]
  · intro h hsp hr hane
    have ha : (a == 0) = false := by
      rcases Bool.eq_false_or_eq_true (a == 0) with h0 | h0
      · exact absurd (Or.inl (beq_iff_eq.mp h0)) h
      · exact h0
    have hv : v = false := by
      rcases Bool.eq_false_or_eq_true v with h0 | h0
      · exact absurd (Or.inr h0) h
      · exact h0
    have hrne : (r == -1) = false := beq_eq_false_iff_ne.mpr hr
    have hanee : (a != -1) = true := bne_iff_ne.mpr hane
    simp [adjustIndices, ha, hv, hsp, hrne, hanee]

/-- C7 witness: concrete instances of the three post-loop adjustment
rules. -/
theorem C7_diff_index_adjustment_witness :
    adjustIndices false 2 (-1) 1 2 = (false, 1) ∧
    adjustIndices false 3 1 1 2 = (false, 1) ∧
    (adjustIndices true 5 7 9 2).1 = true := by
  refine ⟨?_, ?_, ?_⟩
  · exact (C7_diff_index_adjustment false 2 (-1) 1 2).2.1 (by decide) (by decide) rfl
  · have h := (C7_diff_index_adjustment false 3 1 1 2).2.2 (by decide) (by decide)
      (by decide) (by decide)
    rw [h]
    decide
  · exact (C7_diff_index_adjustment true 5 7 9 2).1 (Or.inr rfl)

/-- C8: HandleExit is idempotent — a second call leaves the queue exactly
as the first left it and closes no fence, a pending kms fence is closed
exactly once, and after one call the state word is exactly
ConfigurationChanged plus whichever of DisableOverlayUsage and ClonedMode
were previously set, with the in-flight layers, committed plane state and
both not-in-use surface lists empty. -/
theorem C8_handle_exit_idempotent (q : Queue) :
    (HandleExit (HandleExit q).1).1 = (HandleExit q).1 ∧
    (HandleExit (HandleExit q).1).2 = [] ∧
    (HandleExit q).2 = (if q.kmsFence > 0 then [q.kmsFence] else []) ∧
    (HandleExit q).1.stateWord =
      { poweredOn := false, configurationChanged := true, needsColorCorrection := false, disableOverlayUsage := q.stateWord.disableOverlayUsage, ignoreIdleRefresh := false, clonedMode := q.stateWord.clonedMode, lastFrameIdleUpdate := false, markSurfacesForRelease := false, releaseSurfaces := false } ∧
    (HandleExit q).1.inFlight = [] ∧ (HandleExit q).1.prevPlanes = [] ∧
    (HandleExit q).1.surfacesNotInuse = [] ∧ (HandleExit q).1.markNotInuse = [] := by
  by_cases hk : q.kmsFence > 0
  · simp [HandleExit, ResetQueue, hk]
  · simp [HandleExit, ResetQueue, hk]

/-- C9 counterexample: right after SetPowerMode(On), a QueueUpdate that
succeeds through the can_ignore_commit early return pushes no color
correction and leaves both NeedsColorCorrection and ConfigurationChanged
set, contradicting the claim that the next successful QueueUpdate pushes
and clears them. -/
theorem C9_ignored_commit_skips_color_push :
    (SetPowerMode steadyQ PowerMode.kOn).stateWord.needsColorCorrection = true ∧
    (SetPowerMode steadyQ PowerMode.kOn).stateWord.configurationChanged = true ∧
    (QueueUpdate oracle0 false (SetPowerMode steadyQ PowerMode.kOn) [hlSteady]
      false (-1)).ok = true ∧
    (QueueUpdate oracle0 false (SetPowerMode steadyQ PowerMode.kOn) [hlSteady]
      false (-1)).trace.colorPushed = false ∧
    (QueueUpdate oracle0 false (SetPowerMode steadyQ PowerMode.kOn) [hlSteady]
      false (-1)).q.stateWord.needsColorCorrection = true ∧
    (QueueUpdate oracle0 false (SetPowerMode steadyQ PowerMode.kOn) [hlSteady]
      false (-1)).q.stateWord.configurationChanged = true := by
  decide

/-- C9 amended: SetPowerMode(On) sets PoweredOn, ConfigurationChanged and
NeedsColorCorrection and clears IgnoreIdleRefresh; every successful
QueueUpdate that reaches the commit call with NeedsColorCorrection set
pushes the color correction and clears the bit; and every successful
QueueUpdate that performed full validation clears ConfigurationChanged —
an update that returns on the can_ignore_commit path does neither. -/
theorem C9_power_on_color_amended :
    (∀ q : Queue, (SetPowerMode q PowerMode.kOn).stateWord =
      { q.stateWord with poweredOn := true, configurationChanged := true, needsColorCorrection := true, ignoreIdleRefresh := false }) ∧
    (∀ (o : Oracle) (db : Bool) (q : Queue) (inp : List HwcLayerM) (iu : Bool)
      (ri : Int),
      q.stateWord.needsColorCorrection = true →
      (QueueUpdate o db q inp iu ri).ok = true →
      (QueueUpdate o db q inp iu ri).trace.committed = true →
      ((QueueUpdate o db q inp iu ri).trace.colorPushed = true ∧
       (QueueUpdate o db q inp iu ri).q.stateWord.needsColorCorrection = false)) ∧
    (∀ (o : Oracle) (db : Bool) (q : Queue) (inp : List HwcLayerM) (iu : Bool)
      (ri : Int),
      (QueueUpdate o db q inp iu ri).ok = true →
      (QueueUpdate o db q inp iu ri).trace.fullValidation = true →
      (QueueUpdate o db q inp iu ri).q.stateWord.configurationChanged = false) := by
  refine ⟨fun q => rfl, ?_, ?_⟩
  · intro o db q inp iu ri hNC hOk hCom
    by_cases hig : IgnoreUpdate q.tracker
    · simp [QueueUpdate, hig] at hCom
    · have hig2 := Bool.eq_false_iff.mpr hig
      by_cases he : (incrPhase o q (phase1 q inp iu) (surfOf q)).earlySuccess = true
      · simp [QueueUpdate, hig2, he, phase1_trace_eq] at hCom
      · have he2 := Bool.eq_false_iff.mpr he
        by_cases hr : (renderPhase o (phase1 q inp iu)
            (fullPhase o q (phase1 q inp iu)
              (incrPhase o q (phase1 q inp iu) (surfOf q)))).1 = true
        · simp [QueueUpdate, hig2, he2, hr] at hOk
        · have hr2 := Bool.eq_false_iff.mpr hr
          by_cases hc : o.commitOk = true
          · have hNCf : (fullPhase o q (phase1 q inp iu)
                (incrPhase o q (phase1 q inp iu) (surfOf q))).stateWord.needsColorCorrection = true := by
              rw [(fp_state o q (phase1 q inp iu)
                (incrPhase o q (phase1 q inp iu) (surfOf q))).1]
              exact hNC
            constructor
            · have hcp := cp_ok_colorPushed o db q (phase1 q inp iu)
                (fullPhase o q (phase1 q inp iu)
                  (incrPhase o q (phase1 q inp iu) (surfOf q)))
                (renderPhase o (phase1 q inp iu)
                  (fullPhase o q (phase1 q inp iu)
                    (incrPhase o q (phase1 q inp iu) (surfOf q)))).2 hc hNCf
              simpa [QueueUpdate, hig2, he2, hr2] using hcp
            · have hcp := cp_ok_needsColor o db q (phase1 q inp iu)
                (fullPhase o q (phase1 q inp iu)
                  (incrPhase o q (phase1 q inp iu) (surfOf q)))
                (renderPhase o (phase1 q inp iu)
                  (fullPhase o q (phase1 q inp iu)
                    (incrPhase o q (phase1 q inp iu) (surfOf q)))).2 hc
              simpa [QueueUpdate, hig2, he2, hr2] using hcp
          · have hc2 := Bool.eq_false_iff.mpr hc
            have hcp := (cp_fail o db q (phase1 q inp iu)
              (fullPhase o q (phase1 q inp iu)
                (incrPhase o q (phase1 q inp iu) (surfOf q)))
              (renderPhase o (phase1 q inp iu)
                (fullPhase o q (phase1 q inp iu)
                  (incrPhase o q (phase1 q inp iu) (surfOf q)))).2 hc2).1
            simp [QueueUpdate, hig2, he2, hr2, hcp] at hOk
  · intro o db q inp iu ri hOk hFV
    by_cases hig : IgnoreUpdate q.tracker
    · simp [QueueUpdate, hig] at hFV
    · have hig2 := Bool.eq_false_iff.mpr hig
      by_cases he : (incrPhase o q (phase1 q inp iu) (surfOf q)).earlySuccess = true
      · simp [QueueUpdate, hig2, he, phase1_trace_eq] at hFV
      · have he2 := Bool.eq_false_iff.mpr he
        by_cases hr : (renderPhase o (phase1 q inp iu)
            (fullPhase o q (phase1 q inp iu)
              (incrPhase o q (phase1 q inp iu) (surfOf q)))).1 = true
        · simp [QueueUpdate, hig2, he2, hr] at hOk
        · have hr2 := Bool.eq_false_iff.mpr hr
          by_cases hc : o.commitOk = true
          · by_cases hvv : (incrPhase o q (phase1 q inp iu) (surfOf q)).validate = true
            · have h1 := cp_ok_config o db q (phase1 q inp iu)
                (fullPhase o q (phase1 q inp iu)
                  (incrPhase o q (phase1 q inp iu) (surfOf q)))
                (renderPhase o (phase1 q inp iu)
                  (fullPhase o q (phase1 q inp iu)
                    (incrPhase o q (phase1 q inp iu) (surfOf q)))).2 hc
              have h2 := fp_config o q (phase1 q inp iu)
                (incrPhase o q (phase1 q inp iu) (surfOf q)) hvv
              simp [QueueUpdate, hig2, he2, hr2, h1, h2]
            · have hvv2 := Bool.eq_false_iff.mpr hvv
              have h3 := cp_ok_fullValidation o db q (phase1 q inp iu)
                (fullPhase o q (phase1 q inp iu)
                  (incrPhase o q (phase1 q inp iu) (surfOf q)))
                (renderPhase o (phase1 q inp iu)
                  (fullPhase o q (phase1 q inp iu)
                    (incrPhase o q (phase1 q inp iu) (surfOf q)))).2 hc
              have h4 := (rp_trace o (phase1 q inp iu)
                (fullPhase o q (phase1 q inp iu)
                  (incrPhase o q (phase1 q inp iu) (surfOf q)))).2.2.2
              have h5 := fp_fv o q (phase1 q inp iu)
                (incrPhase o q (phase1 q inp iu) (surfOf q)) hvv2
              simp [QueueUpdate, hig2, he2, hr2, h3, h4, h5, phase1_trace_eq] at hFV
          · have hc2 := Bool.eq_false_iff.mpr hc
            have hcp := (cp_fail o db q (phase1 q inp iu)
              (fullPhase o q (phase1 q inp iu)
                (incrPhase o q (phase1 q inp iu) (surfOf q)))
              (renderPhase o (phase1 q inp iu)
                (fullPhase o q (phase1 q inp iu)
                  (incrPhase o q (phase1 q inp iu) (surfOf q)))).2 hc2).1
            simp [QueueUpdate, hig2, he2, hr2, hcp] at hOk

/-- C9 witness: a committing frame with NeedsColorCorrection pending
pushes the color correction and clears the bit. -/
theorem C9_power_on_color_amended_witness :
    (QueueUpdate oracle0 false qNC [hlChanged] false (-1)).trace.colorPushed = true ∧
    (QueueUpdate oracle0 false qNC [hlChanged] false (-1)).q.stateWord.needsColorCorrection = false :=
  C9_power_on_color_amended.2.1 oracle0 false qNC [hlChanged] false (-1)
    (by decide) (by rfl) (by rfl)

/-- C10: on every QueueUpdate that is not ignored, the build loop first
resets every input layer's release fence to -1; release fences are
distributed (and the kms fence set to a new positive value) only when the
commit succeeded with a strictly positive out-fence — otherwise every
layer still carries -1 — and conversely every run whose commit succeeded
with a strictly positive out-fence distributes the release fences to the
layers, regardless of cloned mode; in cloned mode the caller's retire
fence stays -1 even though the distribution still happens. -/
theorem C10_fence_discipline (o : Oracle) (db : Bool) (q : Queue)
    (inp : List HwcLayerM) (iu : Bool) (ri : Int)
    (hig : IgnoreUpdate q.tracker = false) :
    ((QueueUpdate o db q inp iu ri).trace.distributed = true →
      ((QueueUpdate o db q inp iu ri).ok = true ∧
       (QueueUpdate o db q inp iu ri).trace.committed = true ∧
       0 < (QueueUpdate o db q inp iu ri).outFence)) ∧
    ((QueueUpdate o db q inp iu ri).trace.distributed = false →
      (QueueUpdate o db q inp iu ri).outLayers = resetFences inp) ∧
    (q.stateWord.clonedMode = true → (QueueUpdate o db q inp iu ri).retire = -1) ∧
    (0 < (QueueUpdate o db q inp iu ri).q.kmsFence →
      ((QueueUpdate o db q inp iu ri).q.kmsFence = q.kmsFence ∨
       ((QueueUpdate o db q inp iu ri).trace.distributed = true ∧
        (QueueUpdate o db q inp iu ri).q.kmsFence =
          (QueueUpdate o db q inp iu ri).outFence))) ∧
    ((QueueUpdate o db q inp iu ri).trace.committed = true ∧
      0 < (QueueUpdate o db q inp iu ri).outFence →
      (QueueUpdate o db q inp iu ri).trace.distributed = true) ∧
    (phase1 q inp iu).out = resetFences inp := by
  by_cases he : (incrPhase o q (phase1 q inp iu) (surfOf q)).earlySuccess = true
  · refine ⟨?_, ?_, ?_, ?_, ?_, phase1_out q inp iu⟩
    · intro hd
      simp [QueueUpdate, hig, he, phase1_trace_eq] at hd
    · intro hd
      simp [QueueUpdate, hig, he, phase1_out]
    · intro hcl
      simp [QueueUpdate, hig, he]
    · intro hk
      simp [QueueUpdate, hig, he]
    · intro h
      have hcm := h.1
      simp [QueueUpdate, hig, he, phase1_trace_eq] at hcm
  · have he2 := Bool.eq_false_iff.mpr he
    have hd0 : (renderPhase o (phase1 q inp iu)
        (fullPhase o q (phase1 q inp iu)
          (incrPhase o q (phase1 q inp iu) (surfOf q)))).2.distributed = false := by
      rw [(rp_trace o (phase1 q inp iu)
        (fullPhase o q (phase1 q inp iu)
          (incrPhase o q (phase1 q inp iu) (surfOf q)))).2.2.1,
        (fp_trace o q (phase1 q inp iu)
          (incrPhase o q (phase1 q inp iu) (surfOf q))).2.2,
        phase1_trace_eq]
    have hc0 : (renderPhase o (phase1 q inp iu)
        (fullPhase o q (phase1 q inp iu)
          (incrPhase o q (phase1 q inp iu) (surfOf q)))).2.committed = false := by
      rw [(rp_trace o (phase1 q inp iu)
        (fullPhase o q (phase1 q inp iu)
          (incrPhase o q (phase1 q inp iu) (surfOf q)))).1,
        (fp_trace o q (phase1 q inp iu)
          (incrPhase o q (phase1 q inp iu) (surfOf q))).1,
        phase1_trace_eq]
    by_cases hr : (renderPhase o (phase1 q inp iu)
        (fullPhase o q (phase1 q inp iu)
          (incrPhase o q (phase1 q inp iu) (surfOf q)))).1 = true
    · refine ⟨?_, ?_, ?_, ?_, ?_, phase1_out q inp iu⟩
      · intro hd
        simp [QueueUpdate, hig, he2, hr, hd0] at hd
      · intro hd
        simp [QueueUpdate, hig, he2, hr, phase1_out]
      · intro hcl
        simp [QueueUpdate, hig, he2, hr]
      · intro hk
        simp [QueueUpdate, hig, he2, hr]
      · intro h
        have hcm := h.1
        simp [QueueUpdate, hig, he2, hr, hc0] at hcm
    · have hr2 := Bool.eq_false_iff.mpr hr
      have hQ : QueueUpdate o db q inp iu ri =
          commitPhase o db q (phase1 q inp iu)
            (fullPhase o q (phase1 q inp iu)
              (incrPhase o q (phase1 q inp iu) (surfOf q)))
            (renderPhase o (phase1 q inp iu)
              (fullPhase o q (phase1 q inp iu)
                (incrPhase o q (phase1 q inp iu) (surfOf q)))).2 := by
        simp [QueueUpdate, hig, he2, hr2]
      by_cases hc : o.commitOk = true
      · by_cases hfp : 0 < o.commitFence
        · have hdp := cp_ok_distributed_pos o db q (phase1 q inp iu)
            (fullPhase o q (phase1 q inp iu)
              (incrPhase o q (phase1 q inp iu) (surfOf q)))
            (renderPhase o (phase1 q inp iu)
              (fullPhase o q (phase1 q inp iu)
                (incrPhase o q (phase1 q inp iu) (surfOf q)))).2 hc hfp
          have hok := cp_ok_ok o db q (phase1 q inp iu)
            (fullPhase o q (phase1 q inp iu)
              (incrPhase o q (phase1 q inp iu) (surfOf q)))
            (renderPhase o (phase1 q inp iu)
              (fullPhase o q (phase1 q inp iu)
                (incrPhase o q (phase1 q inp iu) (surfOf q)))).2 hc
          have hcm := cp_ok_committed o db q (phase1 q inp iu)
            (fullPhase o q (phase1 q inp iu)
              (incrPhase o q (phase1 q inp iu) (surfOf q)))
            (renderPhase o (phase1 q inp iu)
              (fullPhase o q (phase1 q inp iu)
                (incrPhase o q (phase1 q inp iu) (surfOf q)))).2 hc
          have hof := cp_ok_outFence o db q (phase1 q inp iu)
            (fullPhase o q (phase1 q inp iu)
              (incrPhase o q (phase1 q inp iu) (surfOf q)))
            (renderPhase o (phase1 q inp iu)
              (fullPhase o q (phase1 q inp iu)
                (incrPhase o q (phase1 q inp iu) (surfOf q)))).2 hc
          have hkms := cp_ok_kms o db q (phase1 q inp iu)
            (fullPhase o q (phase1 q inp iu)
              (incrPhase o q (phase1 q inp iu) (surfOf q)))
            (renderPhase o (phase1 q inp iu)
              (fullPhase o q (phase1 q inp iu)
                (incrPhase o q (phase1 q inp iu) (surfOf q)))).2 hc
          refine ⟨?_, ?_, ?_, ?_, ?_, phase1_out q inp iu⟩
          · intro hd
            rw [hQ]
            rw [hof]
            exact ⟨hok, hcm, hfp⟩
          · intro hd
            rw [hQ] at hd
            rw [hdp] at hd
            exact absurd hd (by decide)
          · intro hcl
            have hclf : (fullPhase o q (phase1 q inp iu)
                (incrPhase o q (phase1 q inp iu) (surfOf q))).stateWord.clonedMode = true := by
              rw [(fp_state o q (phase1 q inp iu)
                (incrPhase o q (phase1 q inp iu) (surfOf q))).2]
              exact hcl
            have hrc := cp_ok_retire_cloned o db q (phase1 q inp iu)
              (fullPhase o q (phase1 q inp iu)
                (incrPhase o q (phase1 q inp iu) (surfOf q)))
              (renderPhase o (phase1 q inp iu)
                (fullPhase o q (phase1 q inp iu)
                  (incrPhase o q (phase1 q inp iu) (surfOf q)))).2 hc hclf
            rw [hQ]
            exact hrc
          · intro hk
            rw [hQ] at hk ⊢
            rcases hkms with h | h | h
            · rw [h] at hk
              exact absurd hk (by decide)
            · exact Or.inl h
            · exact Or.inr ⟨h.2.2, by rw [h.1, hof]⟩
          · intro h
            rw [hQ]
            exact hdp
        · have hnf := cp_ok_nofence o db q (phase1 q inp iu)
            (fullPhase o q (phase1 q inp iu)
              (incrPhase o q (phase1 q inp iu) (surfOf q)))
            (renderPhase o (phase1 q inp iu)
              (fullPhase o q (phase1 q inp iu)
                (incrPhase o q (phase1 q inp iu) (surfOf q)))).2 hc hfp
          have hkms := cp_ok_kms o db q (phase1 q inp iu)
            (fullPhase o q (phase1 q inp iu)
              (incrPhase o q (phase1 q inp iu) (surfOf q)))
            (renderPhase o (phase1 q inp iu)
              (fullPhase o q (phase1 q inp iu)
                (incrPhase o q (phase1 q inp iu) (surfOf q)))).2 hc
          have hof := cp_ok_outFence o db q (phase1 q inp iu)
            (fullPhase o q (phase1 q inp iu)
              (incrPhase o q (phase1 q inp iu) (surfOf q)))
            (renderPhase o (phase1 q inp iu)
              (fullPhase o q (phase1 q inp iu)
                (incrPhase o q (phase1 q inp iu) (surfOf q)))).2 hc
          refine ⟨?_, ?_, ?_, ?_, ?_, phase1_out q inp iu⟩
          · intro hd
            rw [hQ] at hd
            rw [hnf.1, hd0] at hd
            exact absurd hd (by decide)
          · intro hd
            rw [hQ, hnf.2.1, phase1_out]
          · intro hcl
            rw [hQ]
            exact hnf.2.2
          · intro hk
            rw [hQ] at hk ⊢
            rcases hkms with h | h | h
            · rw [h] at hk
              exact absurd hk (by decide)
            · exact Or.inl h
            · exact absurd h.2.1 hfp
          · intro h
            rw [hQ] at h
            rw [hof] at h
            exact absurd h.2 hfp
      · have hc2 := Bool.eq_false_iff.mpr hc
        have hcp := cp_fail o db q (phase1 q inp iu)
          (fullPhase o q (phase1 q inp iu)
            (incrPhase o q (phase1 q inp iu) (surfOf q)))
          (renderPhase o (phase1 q inp iu)
            (fullPhase o q (phase1 q inp iu)
              (incrPhase o q (phase1 q inp iu) (surfOf q)))).2 hc2
        have hf0 := cp_fail_outFence o db q (phase1 q inp iu)
          (fullPhase o q (phase1 q inp iu)
            (incrPhase o q (phase1 q inp iu) (surfOf q)))
          (renderPhase o (phase1 q inp iu)
            (fullPhase o q (phase1 q inp iu)
              (incrPhase o q (phase1 q inp iu) (surfOf q)))).2 hc2
        refine ⟨?_, ?_, ?_, ?_, ?_, phase1_out q inp iu⟩
        · intro hd
          rw [hQ] at hd
          rw [hcp.2.2.1, hd0] at hd
          exact absurd hd (by decide)
        · intro hd
          rw [hQ, hcp.2.1, phase1_out]
        · intro hcl
          rw [hQ]
          exact hcp.2.2.2.1
        · intro hk
          rw [hQ] at hk ⊢
          rcases hcp.2.2.2.2 with h | h
          · rw [h] at hk
            exact absurd hk (by decide)
          · exact Or.inl h
        · intro h
          rw [hQ] at h
          rw [hf0] at h
          exact absurd h.2 (by decide)

/-- C10 witness: in cloned mode, a changed frame whose commit succeeds with
out-fence 3 still distributes release fences while the caller's retire
fence stays -1, and the build phase of the same call resets every input
fence to -1. -/
theorem C10_fence_discipline_witness :
    IgnoreUpdate steadyQC.tracker = false ∧
    steadyQC.stateWord.clonedMode = true ∧
    (QueueUpdate oracle0 false steadyQC [hlChanged] false (-1)).trace.committed = true ∧
    0 < (QueueUpdate oracle0 false steadyQC [hlChanged] false (-1)).outFence ∧
    (QueueUpdate oracle0 false steadyQC [hlChanged] false (-1)).trace.distributed = true ∧
    (QueueUpdate oracle0 false steadyQC [hlChanged] false (-1)).retire = -1 ∧
    (phase1 steadyQC [hlChanged] false).out = resetFences [hlChanged] := by
  have h := C10_fence_discipline oracle0 false steadyQC [hlChanged] false (-1) rfl
  have hcm : (QueueUpdate oracle0 false steadyQC [hlChanged] false (-1)).trace.committed = true := rfl
  have hof : 0 < (QueueUpdate oracle0 false steadyQC [hlChanged] false (-1)).outFence := by decide
  exact ⟨rfl, rfl, hcm, hof, h.2.2.2.2.1 ⟨hcm, hof⟩, h.2.2.1 rfl, h.2.2.2.2.2⟩
